import Mathlib

/-!
Verification development for the PDF object model and incremental
parsing/resolution engine of the Ghostscript `pdfi` interpreter.

The definitions below are a shallow embedding, translated from the C source:
  * `src/unnamed/part_002` — object allocator (`pdfi_alloc_object`), object
    cache (`pdfi_add_to_cache`), dereferencing (`pdfi_dereference`), the token
    reader (`pdfi_read_num`, `pdfi_read_string`, `pdfi_read_token`, ...),
    object reading (`pdfi_read_object`), and the repair pass
    (`pdfi_repair_add_object`, `pdfi_repair_file`);
  * `src/pdf/pdf_array.c` — `pdfi_array_alloc`.

C machine integers are modelled as `Nat`/`Int` (no claim here depends on
overflow behaviour); byte streams are lists of `Nat` with a cursor; the
object heap is an indexed store of reference-counted objects.  Functions of
the repository that are only *declared* in the sources at hand (the stack
primitives of pdf_stack.c, the loop detector of pdf_loop_detect.c, the
dictionary accessors of pdf_dict.c, and the filter codecs of pdf_file.c) are
modelled from the specification; each such definition is marked
`Modelled from the spec:` in its doc comment.
-/

namespace GhostPDF

/-- Object identifiers into the model heap (C: `pdf_obj *`). -/
abbrev ObjId := Nat

/-- The tag of a PDF object (C: `pdf_obj_type` as used in part_002). -/
inductive PdfObjType where
  | tNull | tBool | tInt | tReal | tName | tString
  | tArray | tDict | tIndirect | tKeyword
  | tArrayMark | tDictMark | tProcMark | tXrefTable
  deriving DecidableEq, Repr

/-- Recognised keyword enum (C: `pdf_key` values used in part_002). -/
inductive PdfKey where
  | notAKeyword | kObj | kEndObj | kStream | kEndStream
  | kXref | kStartXref | kTrailer | kInvalid
  deriving DecidableEq, Repr

/-- Ghostscript error codes, negative integers as in base/gserrors.h; the
`circular_reference` code is pdfi-specific.  Only distinctness and sign
matter to the claims. -/
def gs_error_unknownerror : Int := -1
def gs_error_ioerror : Int := -12
def gs_error_rangecheck : Int := -15
def gs_error_stackunderflow : Int := -17
def gs_error_syntaxerror : Int := -18
def gs_error_typecheck : Int := -20
def gs_error_undefined : Int := -21
def gs_error_VMerror : Int := -25
def gs_error_circular_reference : Int := -31

/-- Sticky per-document error bits (C: `E_PDF_*` flags set on
`ctx->pdf_errors`; the header defining the values is not in the sources, the
bit positions are a modelling choice, only distinctness matters). -/
def E_PDF_BADOBJNUMBER : Nat := 1
def E_PDF_MALFORMEDNUMBER : Nat := 2
def E_PDF_MISSINGWHITESPACE : Nat := 4
def E_PDF_UNESCAPEDSTRING : Nat := 8
def E_PDF_MISSINGENDOBJ : Nat := 16

/-- One object in the model heap.  This is the union of the fields of the C
structs `pdf_obj`, `pdf_num`, `pdf_string`/`pdf_name`, `pdf_keyword`,
`pdf_array`, `pdf_dict`, `pdf_indirect_ref`, `pdf_bool`.  A `PDF_REAL`
carries the exactly-parsed decimal value as `realMant / 10 ^ realDigits`
(no claim depends on binary-float rounding).  Array and dictionary slots are
`Option ObjId`: `none` is a C `NULL` pointer (as left by `memset` in
`pdfi_alloc_object`). -/
structure PdfObjData where
  type : PdfObjType
  objectNum : Nat := 0
  generationNum : Nat := 0
  intVal : Int := 0
  realMant : Int := 0
  realDigits : Nat := 0
  boolVal : Bool := false
  strData : List Nat := []
  key : PdfKey := .notAKeyword
  refNum : Nat := 0
  refGen : Nat := 0
  values : List (Option ObjId) := []
  dkeys : List (Option ObjId) := []
  entries : Nat := 0
  streamOffset : Nat := 0
  deriving DecidableEq, Repr

/-- One cross-reference table entry (C: `xref_entry`).  The C union
`u.uncompressed {offset, generation_num}` / `u.compressed
{compressed_stream_num, object_index}` is flattened into four fields; the
`cache` back-pointer holds the id of the cached object of the entry's cache
node (C: `entry->cache->o`), `none` when there is no cache node. -/
structure XrefEntry where
  objectNum : Nat := 0
  free : Bool := false
  compressed : Bool := false
  offset : Nat := 0
  gen : Nat := 0
  streamNum : Nat := 0
  objIndex : Nat := 0
  cache : Option ObjId := none
  deriving DecidableEq, Repr

/-- A byte stream with a cursor (C: `pdf_stream` over `sfread`/`sputback`).
`pdfi_read_bytes` of one byte returns the byte under `pos`; at end of data it
returns zero bytes and latches `eof`.  `pdfi_unread` of n bytes moves the
cursor back n positions (every unread in the sources pushes back exactly the
bytes most recently read, so the cursor model is faithful);
`pdfi_unread_tell` is `pos`. -/
structure PStream where
  data : List Nat
  pos : Nat := 0
  eof : Bool := false
  deriving DecidableEq, Repr

def PStream.readByte (s : PStream) : Option Nat × PStream :=
  match s.data.get? s.pos with
  | some b => (some b, { s with pos := s.pos + 1 })
  | none => (none, { s with eof := true })

def PStream.unread (s : PStream) (n : Nat) : PStream :=
  { s with pos := s.pos - n, eof := false }

def PStream.seekTo (s : PStream) (off : Nat) : PStream :=
  { s with pos := off, eof := false }

/-- The interpreter context (the fields of C `pdf_context` used by the code
under verification).  The heap assigns ids in allocation order; `refcnt` is
parallel to `heap`.  The object cache is the LRU list `cacheList` of cached
object ids, least-recently-used first, most-recently-used last, together
with the counter `cacheEntries` and the per-entry back-pointers in `xref`.
`loopDetection` is the active loop-detection scope, `none` when no scope is
active (C: `ctx->loop_detection`).  `filters` is the external decompression
codec: it yields the decoded bytes of the stream whose data begins at the
given main-stream offset (the spec treats codecs as opaque byte-transform
collaborators). -/
structure Ctx where
  heap : List (Option PdfObjData) := []
  refcnt : List Nat := []
  stack : List ObjId := []
  xref : List XrefEntry := []
  xrefSize : Nat := 0
  cacheList : List ObjId := []
  cacheEntries : Nat := 0
  maxCache : Nat := 32
  pdfErrors : Nat := 0
  stopOnError : Bool := false
  loopDetection : Option (List Nat) := none
  main : PStream := { data := [] }
  mainLength : Nat := 0
  filters : Nat → Option (List Nat) := fun _ => none
  root : Option ObjId := none
  repaired : Bool := false

/-- Fetch a heap object; a freed or never-allocated id yields `none`. -/
def Ctx.obj (c : Ctx) (i : ObjId) : Option PdfObjData :=
  (c.heap.get? i).join

/-- Reference count of an object id. -/
def Ctx.rc (c : Ctx) (i : ObjId) : Nat := c.refcnt.getD i 0

def Ctx.setObj (c : Ctx) (i : ObjId) (o : Option PdfObjData) : Ctx :=
  { c with heap := c.heap.set i o }

def Ctx.setRc (c : Ctx) (i : ObjId) (n : Nat) : Ctx :=
  { c with refcnt := c.refcnt.set i n }

/-- Allocate a fresh heap object with reference count 0 (the body of
`pdfi_alloc_object` after the type-dispatched size computation; composite
payloads are passed in by the caller-specific constructors below).  The
returned code is 0: allocation failure (`gs_error_VMerror`) has no
counterpart in the model heap. -/
def Ctx.alloc (c : Ctx) (d : PdfObjData) : Int × Ctx × ObjId :=
  (0, { c with heap := c.heap ++ [some d], refcnt := c.refcnt ++ [0] }, c.heap.length)

/-- `pdfi_countup`: increment the reference count. -/
def countup (c : Ctx) (i : ObjId) : Ctx :=
  c.setRc i (c.rc i + 1)

/-- Child object ids owned by an object (array values, dictionary keys and
values), for the recursive release in `pdfi_free_object` /
`pdfi_free_array` / `pdfi_free_dict`. -/
def childIds (d : PdfObjData) : List ObjId :=
  (d.dkeys ++ d.values).foldr (fun o acc => match o with | some j => j :: acc | none => acc) []

/-- `pdfi_countdown` with explicit fuel: decrement the reference count; a
count reaching 0 frees the object (`pdfi_free_object`), recursively counting
down its children.  In every state built by the token reader children are
allocated before their parents, so child ids are smaller than the parent id
and fuel `i + 1` suffices; a countdown of an id whose count is already 0
leaves the state unchanged (in C this underflows the count and never
frees). -/
def countdownFuel : Nat → Ctx → ObjId → Ctx
  | 0, c, _ => c
  | fuel + 1, c, i =>
    match c.obj i with
    | none => c
    | some d =>
      let r := c.rc i
      if r ≤ 1 then
        let c := (c.setObj i none).setRc i 0
        (childIds d).foldl (fun acc j => countdownFuel fuel acc j) c
      else
        c.setRc i (r - 1)

def countdown (c : Ctx) (i : ObjId) : Ctx := countdownFuel (i + 1) c i

/-! ### Stack primitives

Modelled from the spec: the bodies of `pdfi_push`, `pdfi_pop`,
`pdfi_clearstack`, `pdfi_mark_stack`, `pdfi_count_to_mark` and
`pdfi_clear_to_mark` live in pdf_stack.c, which is not among the sources;
their semantics is fixed by the specification and by the comment block in
part_002 lines 177–182: pushing an object onto the stack increments its
reference count, popping it decrements it, marks bracket spans that the
composite builders collapse.  The model stack keeps the top of stack at the
head (C `ctx->stack_top[-1]` is `stack.head?`). -/

/-- Modelled from the spec: `pdfi_push` — push and count up (pdf_stack.c is
not among the sources). -/
def pdfiPush (c : Ctx) (i : ObjId) : Int × Ctx :=
  (0, { countup c i with stack := i :: (countup c i).stack })

/-- Modelled from the spec: `pdfi_pop` — pop `n` entries, counting each
down (pdf_stack.c is not among the sources). -/
def pdfiPop (c : Ctx) : Nat → Ctx
  | 0 => c
  | n + 1 =>
    match c.stack with
    | [] => c
    | i :: rest => pdfiPop ({ countdown { c with stack := rest } i with stack := (countdown { c with stack := rest } i).stack }) n

/-- Modelled from the spec: `pdfi_clearstack` (pdf_stack.c is not among the
sources). -/
def pdfiClearStack (c : Ctx) : Ctx := pdfiPop c c.stack.length

/-- Top-of-stack id, C `ctx->stack_top[-k]` for `k ≥ 1`. -/
def Ctx.top (c : Ctx) (k : Nat) : Option ObjId := c.stack.get? (k - 1)

/-- Number of entries on the stack, C `ctx->stack_top - ctx->stack_bot`. -/
def Ctx.depth (c : Ctx) : Nat := c.stack.length

/-- Type of the object at stack position `top[-k]`. -/
def Ctx.topType (c : Ctx) (k : Nat) : Option PdfObjType :=
  (c.top k).bind fun i => (c.obj i).map (·.type)

/-- Modelled from the spec: `pdfi_mark_stack` — allocate a mark object of
the given mark type and push it (pdf_stack.c is not among the sources). -/
def pdfiMarkStack (c : Ctx) (t : PdfObjType) : Int × Ctx :=
  let (code, c, i) := c.alloc { type := t }
  if code < 0 then (code, c) else pdfiPush c i

def isMarkType (t : PdfObjType) : Bool :=
  t = .tArrayMark || t = .tDictMark || t = .tProcMark

/-- The scan of `pdfi_count_to_mark`: entries above the topmost mark. -/
def countToMarkGo (c : Ctx) : List ObjId → Nat → Int × Nat
  | [], _ => (gs_error_unknownerror, 0)
  | i :: rest, n =>
    match c.obj i with
    | some d => if isMarkType d.type then (0, n) else countToMarkGo c rest (n + 1)
    | none => countToMarkGo c rest (n + 1)

/-- Modelled from the spec: `pdfi_count_to_mark` — number of entries above
the topmost mark; error when no mark is present (pdf_stack.c is not among
the sources). -/
def pdfiCountToMark (c : Ctx) : Int × Nat :=
  countToMarkGo c c.stack 0

/-- Modelled from the spec: `pdfi_clear_to_mark` — pop everything down to
and including the topmost mark (pdf_stack.c is not among the sources). -/
def pdfiClearToMark (c : Ctx) : Ctx :=
  let (code, n) := pdfiCountToMark c
  if code < 0 then pdfiClearStack c else pdfiPop c (n + 1)

/-! ### Character classes (part_002 lines 604–652) -/

/-- `iswhite` (part_002 line 604). -/
def iswhite (b : Nat) : Bool :=
  b = 0x00 || b = 0x09 || b = 0x0a || b = 0x0c || b = 0x0d || b = 0x20

/-- `isdelimiter` (part_002 line 612): `/ ( ) [ ] < > { } %`. -/
def isdelimiter (b : Nat) : Bool :=
  b = 0x2f || b = 0x28 || b = 0x29 || b = 0x5b || b = 0x5d ||
  b = 0x3c || b = 0x3e || b = 0x7b || b = 0x7d || b = 0x25

/-- `ishex` (part_002 line 620), translated branch for branch. -/
def ishex (b : Nat) : Bool :=
  if b < 0x30 then false
  else if b > 0x39 then
    if b > 0x46 then
      if b < 0x61 then false
      else if b > 0x66 then false
      else true
    else
      if b < 0x41 then false else true
  else true

/-- `fromhex` (part_002 line 642). -/
def fromhex (b : Nat) : Nat :=
  if b > 0x39 then
    if b > 0x46 then b - 0x57 else b - 0x37
  else b - 0x30

def isDigitByte (b : Nat) : Bool := 0x30 ≤ b && b ≤ 0x39

/-! ### Whitespace / EOL / comment skipping (part_002 lines 659–697, 1222–1245) -/

/-- Loop body of `skip_white` (part_002 lines 665–672): read bytes while
white; at the first non-white byte unread it; at end of data return with
`eof` latched and nothing unread. -/
def skipWhiteLoop : Nat → PStream → PStream
  | 0, s => s
  | fuel + 1, s =>
    match s.readByte with
    | (none, s) => s
    | (some b, s) => if iswhite b then skipWhiteLoop fuel s else s.unread 1

/-- `skip_white` (part_002 line 659). -/
def skip_white (s : PStream) : PStream :=
  skipWhiteLoop (s.data.length - s.pos + 1) s

/-- Loop body of `skip_eol` (part_002 lines 685–692). -/
def skipEolLoop : Nat → PStream → PStream
  | 0, s => s
  | fuel + 1, s =>
    match s.readByte with
    | (none, s) => s
    | (some b, s) => if b = 0x0a || b = 0x0d then skipEolLoop fuel s else s.unread 1

/-- `skip_eol` (part_002 line 679). -/
def skip_eol (s : PStream) : PStream :=
  skipEolLoop (s.data.length - s.pos + 1) s

/-- Loop of `pdfi_skip_comment` (part_002 lines 1230–1243): consume to the
next CR or LF (consumed) or end of data. -/
def skipCommentLoop : Nat → PStream → PStream
  | 0, s => s
  | fuel + 1, s =>
    match s.readByte with
    | (none, s) => s
    | (some b, s) => if b = 0x0a || b = 0x0d then s else skipCommentLoop fuel s

def pdfi_skip_comment (s : PStream) : PStream :=
  skipCommentLoop (s.data.length - s.pos + 1) s

/-! ### Number reading (`pdfi_read_num`, part_002 lines 699–807) -/

/-- Accumulator of the `pdfi_read_num` scan loop: `buf` holds the bytes
accepted so far (the prefix `Buffer[0..index)`), `real` and `malformed` are
the loop's flags, `errs` the `E_PDF_*` bits the loop raises. -/
structure NumAcc where
  buf : List Nat := []
  real : Bool := false
  malformed : Bool := false
  errs : Nat := 0
  deriving DecidableEq, Repr

/-- The scan loop of `pdfi_read_num` (part_002 lines 710–759), one
constructor case per iteration.  Returns a negative code on the syntax
errors the loop can raise under `stoponerror` (and on a 256-byte run),
otherwise the final stream and accumulator. -/
def readNumLoop (stop : Bool) : Nat → PStream → NumAcc → Int × PStream × NumAcc
  | 0, s, acc => (gs_error_unknownerror, s, acc)
  | fuel + 1, s, acc =>
    match s.readByte with
    | (none, s) => (0, s, acc)
    | (some b, s) =>
      if iswhite b then (0, s, acc)
      else if isdelimiter b then (0, s.unread 1, acc)
      else
        let step : Int × NumAcc :=
          if b = 0x2e then
            if acc.real then
              if stop then (gs_error_syntaxerror, acc)
              else (0, { acc with malformed := true })
            else (0, { acc with real := true })
          else if b = 0x2d || b = 0x2b then
            if acc.buf ≠ [] then
              if stop then (gs_error_syntaxerror, acc)
              else (0, { acc with malformed := true })
            else (0, acc)
          else if ¬ isDigitByte b then
            if stop then (gs_error_syntaxerror, acc)
            else (1, { acc with errs := acc.errs ||| E_PDF_MISSINGWHITESPACE })
          else (0, acc)
        match step with
        | (code, acc) =>
          if code < 0 then (code, s, acc)
          else if code = 1 then (0, s.unread 1, acc)
          else
            let acc := { acc with buf := acc.buf ++ [b] }
            if acc.buf.length > 255 then (gs_error_syntaxerror, s, acc)
            else readNumLoop stop fuel s acc

/-- Value of a digit run, most significant first. -/
def digitsVal (bs : List Nat) : Nat :=
  bs.foldl (fun acc b => acc * 10 + (b - 0x30)) 0

/-- `sscanf("%d")` on the scanned buffer: optional sign then at least one
digit; `none` is a matching failure (sscanf result 0).  An empty buffer is
the sscanf end-of-input case, in which the C code uses the uninitialised
`value.i`; no such call arises with a non-empty run, the model returns 0. -/
def parseScanfInt (bs : List Nat) : Option Int :=
  match bs with
  | [] => some 0
  | b :: rest =>
    let (sign, ds) : Int × List Nat :=
      if b = 0x2d then (-1, rest) else if b = 0x2b then (1, rest) else (1, b :: rest)
    match ds with
    | [] => none
    | d :: _ => if isDigitByte d then some (sign * digitsVal (ds.takeWhile isDigitByte)) else none

/-- `sscanf("%f")` on the scanned buffer: optional sign, digits with at most
one decimal point, at least one digit in all; the value is returned exactly
as `mantissa / 10 ^ digits` (claims do not depend on float rounding).
`none` is a matching failure. -/
def parseScanfReal (bs : List Nat) : Option (Int × Nat) :=
  match bs with
  | [] => some (0, 0)
  | b :: rest =>
    let (sign, ds) : Int × List Nat :=
      if b = 0x2d then (-1, rest) else if b = 0x2b then (1, rest) else (1, b :: rest)
    let ip := ds.takeWhile isDigitByte
    let after := ds.drop ip.length
    match after with
    | 0x2e :: fr =>
      let fp := fr.takeWhile isDigitByte
      if ip = [] ∧ fp = [] then none
      else some (sign * (digitsVal (ip ++ fp) : Int), fp.length)
    | _ => if ip = [] then none else some (sign * (digitsVal ip : Int), 0)

/-- `pdfi_read_num` (part_002 lines 699–807): skip whitespace, scan one
number run, then build a `PDF_REAL` (well-formed run with a point) or a
`PDF_INT` object and push it.  A malformed run (second point, sign not in
first position) without `stoponerror` yields a `PDF_INT` of value 0 and
raises `E_PDF_MALFORMEDNUMBER`. -/
def pdfi_read_num (c : Ctx) (s : PStream) : Int × Ctx × PStream :=
  let s := skip_white s
  match readNumLoop c.stopOnError (s.data.length - s.pos + 1) s {} with
  | (code, s, acc) =>
    if code < 0 then (code, c, s)
    else
      let c := { c with pdfErrors := c.pdfErrors ||| acc.errs }
      if acc.malformed then
        let (_, c, num) := c.alloc { type := .tInt, intVal := 0 }
        let c := { c with pdfErrors := c.pdfErrors ||| E_PDF_MALFORMEDNUMBER }
        let (pcode, c) := pdfiPush c num
        (pcode, c, s)
      else if acc.real then
        match parseScanfReal acc.buf with
        | none => (gs_error_syntaxerror, c, s)
        | some (m, d) =>
          let (_, c, num) := c.alloc { type := .tReal, realMant := m, realDigits := d }
          let (pcode, c) := pdfiPush c num
          (pcode, c, s)
      else
        match parseScanfInt acc.buf with
        | none => (gs_error_syntaxerror, c, s)
        | some v =>
          let (_, c, num) := c.alloc { type := .tInt, intVal := v }
          let (pcode, c) := pdfiPush c num
          (pcode, c, s)

/-! ### Name reading (`pdfi_read_name`, part_002 lines 809–890) -/

/-- The scan loop of `pdfi_read_name` (part_002 lines 822–870): regular
characters accumulate, `#XX` hex escapes are decoded inline, whitespace or
a delimiter ends the name. -/
def readNameLoop : Nat → PStream → List Nat → Int × PStream × List Nat
  | 0, s, buf => (gs_error_unknownerror, s, buf)
  | fuel + 1, s, buf =>
    match s.readByte with
    | (none, s) => (0, s, buf)
    | (some b, s) =>
      if iswhite b then (0, s, buf)
      else if isdelimiter b then (0, s.unread 1, buf)
      else if b = 0x23 then
        match s.readByte with
        | (none, s) => (gs_error_ioerror, s, buf)
        | (some h0, s) =>
          match s.readByte with
          | (none, s) => (gs_error_ioerror, s, buf)
          | (some h1, s) =>
            if ¬ ishex h0 ∨ ¬ ishex h1 then (gs_error_ioerror, s, buf)
            else readNameLoop fuel s (buf ++ [fromhex h0 * 16 + fromhex h1])
      else readNameLoop fuel s (buf ++ [b])

/-- `pdfi_read_name` (part_002 line 809). -/
def pdfi_read_name (c : Ctx) (s : PStream) : Int × Ctx × PStream :=
  match readNameLoop (s.data.length - s.pos + 1) s [] with
  | (code, s, buf) =>
    if code < 0 then (code, c, s)
    else
      let (_, c, nm) := c.alloc { type := .tName, strData := buf }
      let (pcode, c) := pdfiPush c nm
      (pcode, c, s)

/-! ### Hex strings (`pdfi_read_hexstring`, part_002 lines 892–972) -/

/-- The inner whitespace-skipping reads of `pdfi_read_hexstring` (part_002
lines 909–915 and 925–931): read until a non-white byte or end of data. -/
def readNonWhite : Nat → PStream → Option Nat × PStream
  | 0, s => (none, s)
  | fuel + 1, s =>
    match s.readByte with
    | (none, s) => (none, s)
    | (some b, s) => if iswhite b then readNonWhite fuel s else (some b, s)

/-- The outer loop of `pdfi_read_hexstring` (part_002 lines 908–954). -/
def readHexLoop : Nat → PStream → List Nat → Int × PStream × List Nat
  | 0, s, buf => (gs_error_unknownerror, s, buf)
  | fuel + 1, s, buf =>
    match readNonWhite (s.data.length - s.pos + 1) s with
    | (none, s) => (0, s, buf)
    | (some b0, s) =>
      if b0 = 0x3e then (0, s, buf)
      else
        match readNonWhite (s.data.length - s.pos + 1) s with
        | (none, s) => (0, s, buf)
        | (some b1, s) =>
          if ¬ ishex b0 ∨ ¬ ishex b1 then (gs_error_syntaxerror, s, buf)
          else readHexLoop fuel s (buf ++ [fromhex b0 * 16 + fromhex b1])

/-- `pdfi_read_hexstring` (part_002 line 892). -/
def pdfi_read_hexstring (c : Ctx) (s : PStream) : Int × Ctx × PStream :=
  match readHexLoop (s.data.length - s.pos + 1) s [] with
  | (code, s, buf) =>
    if code < 0 then (code, c, s)
    else
      let (_, c, str) := c.alloc { type := .tString, strData := buf }
      let (pcode, c) := pdfiPush c str
      (pcode, c, s)

/-! ### Literal strings (`pdfi_read_string`, part_002 lines 974–1162) -/

/-- State of the `pdfi_read_string` scan loop: the accumulated bytes, the
pending octal digit values (`octal[0..octal_index)`), the parenthesis
nesting count and the `escape` / `skip_eol` flags. -/
structure StrAcc where
  buf : List Nat := []
  octal : List Nat := []
  nesting : Nat := 0
  escape : Bool := false
  skipEol : Bool := false
  errs : Nat := 0
  deriving DecidableEq, Repr

/-- Value of a pending octal escape terminated after one or two digits
(part_002 lines 1019–1021 and the parallel copies). -/
def octalVal2 (oc : List Nat) : Nat :=
  match oc with
  | [a] => a
  | [a, b] => a * 8 + b
  | _ => 0

/-- The scan loop of `pdfi_read_string` (part_002 lines 988–1138), one case
per byte read, following the C control flow: `skip_eol` consumes the rest
of an end-of-line, `escape` handles the backslash escapes (`\n` and `\r`
both yield 0x0A, `\t` 0x09, `\b` 0x07, `\f` 0x0C, backslash before an
end-of-line produces nothing, octal digits accumulate), the main switch
handles EOL normalisation, nesting and the closing parenthesis. -/
def readStringLoop (stop : Bool) : Nat → PStream → StrAcc → Int × PStream × StrAcc
  | 0, s, acc => (gs_error_unknownerror, s, acc)
  | fuel + 1, s, acc =>
    match s.readByte with
    | (none, s) => (0, s, acc)
    | (some b, s) =>
      if acc.skipEol ∧ (b = 0x0a ∨ b = 0x0d) then readStringLoop stop fuel s acc
      else
        let acc := { acc with skipEol := false }
        if acc.escape then
          let acc := { acc with escape := false }
          if b = 0x0a ∨ b = 0x0d then
            readStringLoop stop fuel s { acc with skipEol := true }
          else if acc.octal ≠ [] then
            let s := s.unread 2
            let cur := octalVal2 acc.octal
            readStringLoop stop fuel s { acc with octal := [], buf := acc.buf ++ [cur] }
          else if b = 0x6e then readStringLoop stop fuel s { acc with buf := acc.buf ++ [0x0a] }
          else if b = 0x72 then readStringLoop stop fuel s { acc with buf := acc.buf ++ [0x0a] }
          else if b = 0x74 then readStringLoop stop fuel s { acc with buf := acc.buf ++ [0x09] }
          else if b = 0x62 then readStringLoop stop fuel s { acc with buf := acc.buf ++ [0x07] }
          else if b = 0x66 then readStringLoop stop fuel s { acc with buf := acc.buf ++ [0x0c] }
          else if b = 0x28 ∨ b = 0x29 ∨ b = 0x5c then
            readStringLoop stop fuel s { acc with buf := acc.buf ++ [b] }
          else if 0x30 ≤ b ∧ b ≤ 0x37 then
            readStringLoop stop fuel s { acc with octal := acc.octal ++ [b - 0x30] }
          else (gs_error_syntaxerror, s, acc)
        else
          if b = 0x0a ∨ b = 0x0d then
            if acc.octal ≠ [] then
              let s := s.unread 1
              readStringLoop stop fuel s
                { acc with octal := [], buf := acc.buf ++ [octalVal2 acc.octal] }
            else
              readStringLoop stop fuel s { acc with skipEol := true, buf := acc.buf ++ [0x0a] }
          else if b = 0x29 then
            if acc.octal ≠ [] then
              let s := s.unread 1
              readStringLoop stop fuel s
                { acc with octal := [], buf := acc.buf ++ [octalVal2 acc.octal] }
            else if acc.nesting = 0 then (0, s, acc)
            else readStringLoop stop fuel s { acc with nesting := acc.nesting - 1, buf := acc.buf ++ [b] }
          else if b = 0x5c then
            readStringLoop stop fuel s { acc with escape := true }
          else if b = 0x28 then
            readStringLoop stop fuel s
              { acc with errs := acc.errs ||| E_PDF_UNESCAPEDSTRING, nesting := acc.nesting + 1,
                         buf := acc.buf ++ [b] }
          else
            if acc.octal ≠ [] then
              if 0x30 ≤ b ∧ b ≤ 0x37 then
                let oc := acc.octal ++ [b - 0x30]
                if oc.length < 3 then readStringLoop stop fuel s { acc with octal := oc }
                else
                  match oc with
                  | [o0, o1, o2] =>
                    readStringLoop stop fuel s
                      { acc with octal := [], buf := acc.buf ++ [o0 * 64 + o1 * 8 + o2] }
                  | _ => (gs_error_unknownerror, s, acc)
              else
                let s := s.unread 1
                readStringLoop stop fuel s
                  { acc with octal := [], buf := acc.buf ++ [octalVal2 acc.octal] }
            else readStringLoop stop fuel s { acc with buf := acc.buf ++ [b] }

/-- `pdfi_read_string` (part_002 line 974): scan the literal string body
(the opening parenthesis has already been consumed by `pdfi_read_token`),
then build a `PDF_STRING` object and push it. -/
def pdfi_read_string (c : Ctx) (s : PStream) : Int × Ctx × PStream :=
  match readStringLoop c.stopOnError (s.data.length * 4 + 16) s {} with
  | (code, s, acc) =>
    if code < 0 then (code, c, s)
    else
      let c := { c with pdfErrors := c.pdfErrors ||| acc.errs }
      let (_, c, str) := c.alloc { type := .tString, strData := acc.buf }
      let (pcode, c) := pdfiPush c str
      (pcode, c, s)

/-! ### Keywords and tokens (`pdfi_read_keyword`, `pdfi_read_token`,
part_002 lines 1253–1558) -/

/-- The bytes of the keyword and name literals compared against in
part_002 (ASCII). -/
def kwObjBytes : List Nat := [0x6f, 0x62, 0x6a]
def kwEndobjBytes : List Nat := [0x65, 0x6e, 0x64, 0x6f, 0x62, 0x6a]
def kwStreamBytes : List Nat := [0x73, 0x74, 0x72, 0x65, 0x61, 0x6d]
def kwEndstreamBytes : List Nat := [0x65, 0x6e, 0x64, 0x73, 0x74, 0x72, 0x65, 0x61, 0x6d]
def kwStartxrefBytes : List Nat := [0x73, 0x74, 0x61, 0x72, 0x74, 0x78, 0x72, 0x65, 0x66]
def kwTrailerBytes : List Nat := [0x74, 0x72, 0x61, 0x69, 0x6c, 0x65, 0x72]
def kwXrefBytes : List Nat := [0x78, 0x72, 0x65, 0x66]
def kwTrueBytes : List Nat := [0x74, 0x72, 0x75, 0x65]
def kwFalseBytes : List Nat := [0x66, 0x61, 0x6c, 0x73, 0x65]
def kwNullBytes : List Nat := [0x6e, 0x75, 0x6c, 0x6c]
def kwTooLongBytes : List Nat :=
  [0x4b, 0x45, 0x59, 0x57, 0x4f, 0x52, 0x44, 0x5f, 0x54, 0x4f, 0x4f, 0x5f,
   0x4c, 0x4f, 0x4e, 0x47]
def nameObjStmBytes : List Nat := [0x4f, 0x62, 0x6a, 0x53, 0x74, 0x6d]
def nameCatalogBytes : List Nat := [0x43, 0x61, 0x74, 0x61, 0x6c, 0x6f, 0x67]
def nameTypeBytes : List Nat := [0x54, 0x79, 0x70, 0x65]
def nameNBytes : List Nat := [0x4e]
def nameLengthBytes : List Nat := [0x4c, 0x65, 0x6e, 0x67, 0x74, 0x68]

/-- The scan loop of `pdfi_read_keyword` (part_002 lines 1263–1279):
accumulate to whitespace (consumed), a delimiter (unread), end of data, or
255 bytes. -/
def readKeywordLoop : Nat → PStream → List Nat → PStream × List Nat
  | 0, s, buf => (s, buf)
  | fuel + 1, s, buf =>
    match s.readByte with
    | (none, s) => (s, buf)
    | (some b, s) =>
      if iswhite b then (s, buf)
      else if isdelimiter b then (s.unread 1, buf)
      else
        let buf := buf ++ [b]
        if buf.length < 255 then readKeywordLoop fuel s buf else (s, buf)

/-- The keyword classification switch of `pdfi_read_keyword` (part_002
lines 1301–1434), for the cases that tag the keyword object rather than
replace it (the `R`/`true`/`false`/`null` replacements are in
`pdfi_read_keyword` itself). -/
def keywordKeyOf (buf : List Nat) : PdfKey :=
  if buf = kwTooLongBytes then .kInvalid
  else if buf = kwEndstreamBytes then .kEndStream
  else if buf = kwEndobjBytes then .kEndObj
  else if buf = kwObjBytes then .kObj
  else if buf = kwStreamBytes then .kStream
  else if buf = kwStartxrefBytes then .kStartXref
  else if buf = kwTrailerBytes then .kTrailer
  else if buf = kwXrefBytes then .kXref
  else .notAKeyword

/-- `pdfi_read_keyword` (part_002 line 1253): scan a bare token; an empty
or 255-byte run becomes the `KEYWORD_TOO_LONG` invalid keyword (or a
syntax error under `stoponerror`); `true`, `false` and `null` become
`PDF_BOOL`/`PDF_NULL` objects; `R` collapses the two integers below it on
the stack into a `PDF_INDIRECT` reference; `stream` additionally skips the
following end-of-line; every other run is pushed as a `PDF_KEYWORD`
object tagged by `keywordKeyOf`. -/
def pdfi_read_keyword (c : Ctx) (s : PStream) : Int × Ctx × PStream :=
  let s := skip_white s
  match readKeywordLoop 256 s [] with
  | (s, buf0) =>
    if buf0.length ≥ 255 ∨ buf0.length = 0 then
      if c.stopOnError then (gs_error_syntaxerror, c, s)
      else
        let buf := kwTooLongBytes
        let (_, c, kw) := c.alloc { type := .tKeyword, strData := buf, key := keywordKeyOf buf }
        let c := countup c kw
        let (pcode, c) := pdfiPush c kw
        (pcode, countdown c kw, s)
    else
      let buf := buf0
      if buf = kwTrueBytes then
        let (_, c, kw) := c.alloc { type := .tKeyword, strData := buf }
        let c := countdown (countup c kw) kw
        let (_, c, o) := c.alloc { type := .tBool, boolVal := true }
        let (pcode, c) := pdfiPush c o
        (pcode, c, s)
      else if buf = kwFalseBytes then
        let (_, c, kw) := c.alloc { type := .tKeyword, strData := buf }
        let c := countdown (countup c kw) kw
        let (_, c, o) := c.alloc { type := .tBool, boolVal := false }
        let (pcode, c) := pdfiPush c o
        (pcode, c, s)
      else if buf = kwNullBytes then
        let (_, c, kw) := c.alloc { type := .tKeyword, strData := buf }
        let c := countdown (countup c kw) kw
        let (_, c, o) := c.alloc { type := .tNull }
        let (pcode, c) := pdfiPush c o
        (pcode, c, s)
      else if buf = [0x52] then
        let (_, c, kw) := c.alloc { type := .tKeyword, strData := buf }
        let c := countdown (countup c kw) kw
        if c.depth < 2 then (gs_error_stackunderflow, c, s)
        else if c.topType 1 ≠ some .tInt ∨ c.topType 2 ≠ some .tInt then
          (gs_error_typecheck, c, s)
        else
          let gen := (((c.top 1).bind c.obj).map (·.intVal)).getD 0
          let c := pdfiPop c 1
          let num := (((c.top 1).bind c.obj).map (·.intVal)).getD 0
          let c := pdfiPop c 1
          let (_, c, o) := c.alloc { type := .tIndirect, refNum := num.toNat, refGen := gen.toNat }
          let (pcode, c) := pdfiPush c o
          (pcode, c, s)
      else
        let s := if keywordKeyOf buf = .kStream then skip_eol s else s
        let (_, c, kw) := c.alloc { type := .tKeyword, strData := buf, key := keywordKeyOf buf }
        let c := countup c kw
        let (pcode, c) := pdfiPush c kw
        (pcode, countdown c kw, s)

/-- Modify a live heap object in place. -/
def Ctx.modObj (c : Ctx) (i : ObjId) (f : PdfObjData → PdfObjData) : Ctx :=
  match c.obj i with
  | some d => c.setObj i (some (f d))
  | none => c

/-- `pdfi_array_from_stack` (part_002 lines 1164–1200): collapse the span
above the topmost mark into a `PDF_ARRAY` whose slots hold counted
references to the span's objects, clear to the mark, push the array. -/
def pdfi_array_from_stack (c : Ctx) : Int × Ctx :=
  match pdfiCountToMark c with
  | (code, idx) =>
    if code < 0 then (code, c)
    else
      let elems := c.stack.take idx
      let (_, c, a) := c.alloc { type := .tArray, values := (elems.reverse).map some,
                                 entries := idx }
      let c := elems.foldl countup c
      let c := pdfiPop c idx
      let c := pdfiClearToMark c
      pdfiPush c a

/-- Modelled from the spec: `pdfi_dict_from_stack` (pdf_dict.c is not among
the sources) — collapse the span above the topmost dictionary mark into a
`PDF_DICT` of alternating key/value pairs, each slot a counted reference;
an odd span (dangling key) is a syntax error, the policy choice the spec
leaves to the implementation. -/
def pdfi_dict_from_stack (c : Ctx) : Int × Ctx :=
  match pdfiCountToMark c with
  | (code, idx) =>
    if code < 0 then (code, c)
    else if idx % 2 = 1 then (gs_error_syntaxerror, c)
    else
      let elems := c.stack.take idx
      let ordered := elems.reverse
      let ks := (List.range (idx / 2)).map fun j => ordered.get? (2 * j)
      let vs := (List.range (idx / 2)).map fun j => ordered.get? (2 * j + 1)
      let (_, c, d) := c.alloc { type := .tDict, dkeys := ks, values := vs, entries := idx / 2 }
      let c := elems.foldl countup c
      let c := pdfiPop c idx
      let c := pdfiClearToMark c
      pdfiPush c d

/-- `pdfi_read_token` (part_002 lines 1445–1558): skip whitespace and
dispatch on the first byte; self-recursion (comments, `{`/`}` procedure
marks, recoverable `]` failures, stray `)`): consumes at least one byte
first, the fuel is the caller's remaining-byte bound. -/
def pdfi_read_token : Nat → Ctx → PStream → Int × Ctx × PStream
  | 0, c, s => (gs_error_unknownerror, c, s)
  | fuel + 1, c, s =>
    let s := skip_white s
    match s.readByte with
    | (none, s) => (0, c, s)
    | (some b, s) =>
      if isDigitByte b ∨ b = 0x2b ∨ b = 0x2d ∨ b = 0x2e then
        pdfi_read_num c (s.unread 1)
      else if b = 0x2f then pdfi_read_name c s
      else if b = 0x3c then
        match s.readByte with
        | (none, s) => (gs_error_ioerror, c, s)
        | (some b1, s) =>
          let (b1, s) :=
            if iswhite b1 then
              let s := skip_white s
              match s.readByte with
              | (none, s) => (b1, s)
              | (some b1, s) => (b1, s)
            else (b1, s)
          if b1 = 0x3c then
            match pdfiMarkStack c .tDictMark with
            | (code, c) => (code, c, s)
          else if b1 = 0x3e then pdfi_read_hexstring c (s.unread 1)
          else if ishex b1 then pdfi_read_hexstring c (s.unread 1)
          else (gs_error_syntaxerror, c, s)
      else if b = 0x3e then
        match s.readByte with
        | (none, s) => (gs_error_ioerror, c, s)
        | (some b1, s) =>
          if b1 = 0x3e then
            match pdfi_dict_from_stack c with
            | (code, c) => (code, c, s)
          else (gs_error_syntaxerror, c, s)
      else if b = 0x28 then pdfi_read_string c s
      else if b = 0x5b then
        match pdfiMarkStack c .tArrayMark with
        | (code, c) => (code, c, s)
      else if b = 0x5d then
        match pdfi_array_from_stack c with
        | (code, c) =>
          if code < 0 then
            if code = gs_error_VMerror ∨ code = gs_error_ioerror ∨ c.stopOnError then (code, c, s)
            else pdfi_read_token fuel (pdfiClearStack c) s
          else (code, c, s)
      else if b = 0x7b then
        match pdfiMarkStack c .tProcMark with
        | (code, c) => (code, c, s)
      else if b = 0x7d then
        pdfi_read_token fuel (pdfiClearToMark c) s
      else if b = 0x25 then
        pdfi_read_token fuel c (pdfi_skip_comment s)
      else if isdelimiter b then
        if c.stopOnError then (gs_error_syntaxerror, c, s)
        else pdfi_read_token fuel c s
      else pdfi_read_keyword c (s.unread 1)

/-! ### Dictionary access

Modelled from the spec: `pdfi_dict_get`, `pdfi_dict_get_type` and
`pdfi_dict_get_int` live in pdf_dict.c, which is not among the sources; the
spec fixes their semantics — key lookup by byte-exact name, a counted
reference returned to the caller, typed variants failing with a typecheck
condition when the value is not of the expected variant. -/

def xrefGetD (c : Ctx) (n : Nat) : XrefEntry := c.xref.getD n {}

def xrefSet (c : Ctx) (n : Nat) (e : XrefEntry) : Ctx :=
  { c with xref := c.xref.set n e }

/-- First value slot of `d` whose key is the name with bytes `key`. -/
def dictFindVal (c : Ctx) (d : PdfObjData) (key : List Nat) : Option ObjId :=
  (d.dkeys.zip d.values).findSome? fun kv =>
    match kv.1 with
    | some ki =>
      match c.obj ki with
      | some kd => if kd.type = .tName ∧ kd.strData = key then kv.2 else none
      | none => none
    | none => none

/-- Modelled from the spec: `pdfi_dict_get` (pdf_dict.c is not among the
sources) — byte-exact name lookup returning a counted reference;
`gs_error_undefined` when the key is absent. -/
def pdfi_dict_get (c : Ctx) (di : ObjId) (key : List Nat) : Int × Ctx × ObjId :=
  match c.obj di with
  | some d =>
    match dictFindVal c d key with
    | some v => (0, countup c v, v)
    | none => (gs_error_undefined, c, 0)
  | none => (gs_error_undefined, c, 0)

/-- Modelled from the spec: `pdfi_dict_get_type` (pdf_dict.c is not among
the sources) — `pdfi_dict_get` plus a typecheck on the variant. -/
def pdfi_dict_get_type (c : Ctx) (di : ObjId) (key : List Nat) (t : PdfObjType) :
    Int × Ctx × ObjId :=
  match pdfi_dict_get c di key with
  | (code, c, v) =>
    if code < 0 then (code, c, v)
    else if ((c.obj v).map (·.type)) = some t then (0, c, v)
    else (gs_error_typecheck, countdown c v, 0)

/-- Modelled from the spec: `pdfi_dict_get_int` (pdf_dict.c is not among
the sources) — fetch an integer value; the reference is released before
returning the numeric value. -/
def pdfi_dict_get_int (c : Ctx) (di : ObjId) (key : List Nat) : Int × Ctx × Int :=
  match pdfi_dict_get_type c di key .tInt with
  | (code, c, v) =>
    if code < 0 then (code, c, 0)
    else (0, countdown c v, (((c.obj v).map (·.intVal)).getD 0))

/-! ### The object cache (`pdfi_add_to_cache`, part_002 lines 269–310) -/

/-- `pdfi_add_to_cache` (part_002 lines 269–310): reject an object number
beyond the table; when the cache holds `MAX_OBJECT_CACHE_SIZE` entries
first evict the least-recently-used entry — unlink it, null the xref
entry's back-pointer, then count the evicted object down — and then link a
new node holding a counted reference to `o` at the most-recently-used end
and point the xref entry at it. -/
def pdfi_add_to_cache (c : Ctx) (o : ObjId) : Int × Ctx :=
  let onum := ((c.obj o).map (·.objectNum)).getD 0
  if onum > c.xrefSize then (gs_error_rangecheck, c)
  else
    let evicted : Int × Ctx :=
      if c.cacheEntries = c.maxCache then
        match c.cacheList with
        | [] => (gs_error_unknownerror, c)
        | l :: rest =>
          let lnum := ((c.obj l).map (·.objectNum)).getD 0
          let c := { c with cacheList := rest }
          let c := xrefSet c lnum { xrefGetD c lnum with cache := none }
          let c := countdown c l
          (0, { c with cacheEntries := c.cacheEntries - 1 })
      else (0, c)
    match evicted with
    | (code, c) =>
      if code < 0 then (code, c)
      else
        let c := countup c o
        let c := { c with cacheList := c.cacheList ++ [o],
                          cacheEntries := c.cacheEntries + 1 }
        (0, xrefSet c onum { xrefGetD c onum with cache := some o })

/-! ### Whole-object reading (`pdfi_read_object`, part_002 lines 1561–1764) -/

/-- Uniformly sufficient token-reader fuel for a stream: `pdfi_read_token`
recurses only after consuming at least one byte. -/
def tokenFuel (s : PStream) : Nat := s.data.length + 2

/-- The body-token loop of `pdfi_read_object` (part_002 lines 1611–1617):
read tokens until the top of stack is a keyword; a latched `eof` is a
syntax error. -/
def readToKeywordLoop : Nat → Ctx → PStream → Int × Ctx × PStream
  | 0, c, s => (gs_error_unknownerror, c, s)
  | fuel + 1, c, s =>
    match pdfi_read_token (tokenFuel s) c s with
    | (code, c, s) =>
      if code < 0 then (code, c, s)
      else if s.eof then (gs_error_syntaxerror, c, s)
      else if c.topType 1 = some .tKeyword then (0, c, s)
      else readToKeywordLoop fuel c s

/-- Key of the keyword at stack position `top[-k]`. -/
def Ctx.topKey (c : Ctx) (k : Nat) : Option PdfKey :=
  (c.top k).bind fun i => (c.obj i).map (·.key)

/-- Integer value of the object at `top[-k]`. -/
def Ctx.topInt (c : Ctx) (k : Nat) : Int :=
  ((c.top k).bind fun i => (c.obj i).map (·.intVal)).getD 0

/-- `pdfi_read_object` (part_002 lines 1561–1749): read `num gen obj`, the
object body, and the trailing keyword; on `endobj` bind the object number
and generation and insert into the cache; on `stream` record the stream
data offset, cache the dictionary and (best-effort) verify that `/Length`
lands on `endstream endobj`; any other keyword is a tolerated missing
`endobj` when `stoponerror` is unset.  The stream argument is
`ctx->main_stream` at every call site in the sources. -/
def pdfi_read_object (c : Ctx) (s : PStream) : Int × Ctx × PStream :=
  match pdfi_read_token (tokenFuel s) c s with
  | (code, c, s) =>
  if code < 0 then (code, c, s)
  else if c.topType 1 ≠ some .tInt then (gs_error_typecheck, pdfiPop c 1, s)
  else
    let objnum := (c.topInt 1).toNat
    let c := pdfiPop c 1
    match pdfi_read_token (tokenFuel s) c s with
    | (code, c, s) =>
    if code < 0 then (code, c, s)
    else if c.topType 1 ≠ some .tInt then (gs_error_typecheck, pdfiPop c 1, s)
    else
      let gen := (c.topInt 1).toNat
      let c := pdfiPop c 1
      match pdfi_read_token (tokenFuel s) c s with
      | (code, c, s) =>
      if code < 0 then (code, c, s)
      else if c.topType 1 ≠ some .tKeyword then (gs_error_typecheck, pdfiPop c 1, s)
      else if c.topKey 1 ≠ some .kObj then (gs_error_syntaxerror, pdfiPop c 1, s)
      else
        let c := pdfiPop c 1
        match pdfi_read_token (tokenFuel s) c s with
        | (code, c, s) =>
        if code < 0 then (code, c, s)
        else
          match readToKeywordLoop (tokenFuel s) c s with
          | (code, c, s) =>
          if code < 0 then (code, c, s)
          else if c.topKey 1 = some .kEndObj then
            if c.depth < 2 then (gs_error_stackunderflow, c, s)
            else
              let o := (c.top 2).getD 0
              let c := pdfiPop c 1
              let c := c.modObj o fun d => { d with objectNum := objnum, generationNum := gen }
              match pdfi_add_to_cache c o with
              | (code, c) => (code, c, s)
          else if c.topKey 1 = some .kStream then
            let s := skip_eol s
            let offset := s.pos
            let c := pdfiPop c 1
            if c.depth < 1 then (gs_error_stackunderflow, c, s)
            else
              let d := (c.top 1).getD 0
              if c.topType 1 ≠ some .tDict then (gs_error_syntaxerror, pdfiPop c 1, s)
              else
                let c := c.modObj d fun dd =>
                  { dd with objectNum := objnum, generationNum := gen, streamOffset := offset }
                match pdfi_add_to_cache c d with
                | (code, c) =>
                if code < 0 then (code, pdfiPop c 1, s)
                else
                  match pdfi_dict_get_int c d nameLengthBytes with
                  | (code, c, len) =>
                  if code < 0 then (0, c, s)
                  else if len < 0 ∨ len.toNat + offset > c.mainLength then (0, c, s)
                  else
                    let s := { s with pos := s.pos + len.toNat }
                    match pdfi_read_token (tokenFuel s) c s with
                    | (_, c, s) =>
                    if c.depth < 2 then (0, c, s)
                    else if c.topType 1 ≠ some .tKeyword then (0, pdfiPop c 1, s)
                    else if c.topKey 1 ≠ some .kEndStream then (0, pdfiPop c 1, s)
                    else
                      let c := pdfiPop c 1
                      match pdfi_read_token (tokenFuel s) c s with
                      | (code, c, s) =>
                      if code < 0 then
                        if c.stopOnError then (code, c, s) else (0, c, s)
                      else if c.depth < 2 then (gs_error_stackunderflow, c, s)
                      else if c.topType 1 ≠ some .tKeyword then (gs_error_typecheck, pdfiPop c 2, s)
                      else if c.topKey 1 ≠ some .kEndObj then (gs_error_typecheck, pdfiPop c 2, s)
                      else (0, pdfiPop c 1, s)
          else
            if ¬ c.stopOnError then
              let c := { c with pdfErrors := c.pdfErrors ||| E_PDF_MISSINGENDOBJ }
              if c.depth < 2 then (gs_error_stackunderflow, c, s)
              else
                let o := (c.top 2).getD 0
                let c := pdfiPop c 1
                let c := c.modObj o fun d => { d with objectNum := objnum, generationNum := gen }
                match pdfi_add_to_cache c o with
                | (code, c) => (code, c, s)
            else (gs_error_syntaxerror, pdfiPop c 2, s)

/-- `pdfi_read_object_of_type` (part_002 lines 1751–1764). -/
def pdfi_read_object_of_type (c : Ctx) (s : PStream) (t : PdfObjType) : Int × Ctx × PStream :=
  match pdfi_read_object c s with
  | (code, c, s) =>
    if code < 0 then (code, c, s)
    else if c.topType 1 ≠ some t then (gs_error_typecheck, pdfiPop c 1, s)
    else (0, c, s)

/-! ### Loop detection

Modelled from the spec: the bodies of `pdfi_loop_detector_check_object`,
`pdfi_loop_detector_add_object`, `pdfi_loop_detector_mark` and
`pdfi_loop_detector_cleartomark` live in pdf_loop_detect.c, which is not
among the sources; the spec fixes their semantics — a dynamically scoped
set of object numbers currently being resolved, established by callers
around a dereference chain (the mark/add/clear pattern appears in
src/pdf/pdf_mark.c and src/pdf/ghostpdf.c).  Nested marks are not needed by
any claim and are not modelled. -/

/-- Modelled from the spec: membership of `num` on the current resolution
chain (pdf_loop_detect.c is not among the sources). -/
def pdfi_loop_detector_check_object (c : Ctx) (num : Nat) : Bool :=
  match c.loopDetection with
  | some l => num ∈ l
  | none => false

/-- Modelled from the spec: record `num` on the current resolution chain
(pdf_loop_detect.c is not among the sources). -/
def pdfi_loop_detector_add_object (c : Ctx) (num : Nat) : Int × Ctx :=
  match c.loopDetection with
  | some l => (0, { c with loopDetection := some (l ++ [num]) })
  | none => (0, c)

/-- Modelled from the spec: open a loop-detection scope
(pdf_loop_detect.c is not among the sources). -/
def pdfi_loop_detector_mark (c : Ctx) : Int × Ctx :=
  match c.loopDetection with
  | some _ => (0, c)
  | none => (0, { c with loopDetection := some [] })

/-- Modelled from the spec: close the loop-detection scope
(pdf_loop_detect.c is not among the sources). -/
def pdfi_loop_detector_cleartomark (c : Ctx) : Ctx :=
  { c with loopDetection := none }

/-- Modelled from the spec: `pdfi_filter` (pdf_file.c is not among the
sources) — the opaque decompression codec collaborator: a fresh stream of
the decoded bytes of the stream data beginning at the current main-stream
position. -/
def pdfi_filter (c : Ctx) : Int × PStream :=
  match c.filters c.main.pos with
  | some out => (0, { data := out })
  | none => (gs_error_ioerror, { data := [] })

/-! ### Dereferencing (`pdfi_dereference`, part_002 lines 315–570) -/

/-- The ObjStm header loop of the compressed branch (part_002 lines
454–490): read `num_entries` pairs of integer tokens from the decompressed
stream, remembering the offset paired with index `objIndex`. -/
def objStmPairsLoop (objIndex : Nat) : Nat → Nat → Ctx → PStream → Int →
    Int × Ctx × PStream × Int
  | _, 0, c, cs, off => (0, c, cs, off)
  | i, remaining + 1, c, cs, off =>
    match pdfi_read_token (tokenFuel cs) c cs with
    | (code, c, cs) =>
    if code < 0 then (code, c, cs, off)
    else if c.topType 1 ≠ some .tInt then (gs_error_typecheck, pdfiPop c 1, cs, off)
    else
      let c := pdfiPop c 1
      match pdfi_read_token (tokenFuel cs) c cs with
      | (code, c, cs) =>
      if code < 0 then (code, c, cs, off)
      else if c.topType 1 ≠ some .tInt then (gs_error_typecheck, pdfiPop c 1, cs, off)
      else
        let off := if i = objIndex then c.topInt 1 else off
        let c := pdfiPop c 1
        objStmPairsLoop objIndex (i + 1) remaining c cs off

/-- The byte-skip loop of the compressed branch (part_002 lines 492–499):
consume `n` bytes one at a time; `none` when a read fails. -/
def skipBytesLoop : Nat → PStream → Option PStream
  | 0, cs => some cs
  | n + 1, cs =>
    match cs.readByte with
    | (none, _) => none
    | (some _, cs) => skipBytesLoop n cs

/-- The composite-member loop of the compressed branch (part_002 lines
512–526): keep reading tokens until the stack top is a completed array or
dictionary at the mark's depth; a latched `eof` on the member stream is an
io error. -/
def objStmMemberLoop (startDepth : Nat) : Nat → Ctx → PStream → Int × Ctx × PStream
  | 0, c, cs => (gs_error_unknownerror, c, cs)
  | fuel + 1, c, cs =>
    match pdfi_read_token (tokenFuel cs) c cs with
    | (code, c, cs) =>
    if code < 0 then (code, c, cs)
    else if cs.eof then (gs_error_ioerror, c, cs)
    else if (c.topType 1 = some .tArray ∨ c.topType 1 = some .tDict) ∧
            c.depth ≤ startDepth then (0, c, cs)
    else objStmMemberLoop startDepth fuel c cs

/-- `pdfi_dereference` (part_002 lines 315–570), translated branch for
branch: out-of-range object numbers set `E_PDF_BADOBJNUMBER` and either
fail with a range error (`stoponerror`) or resolve to a fresh counted Null;
a never-populated entry is `undefined`; a free entry resolves to a fresh
Null whose count-up is guarded by `code > 0` (the code returned by
`pdfi_alloc_object`, which is 0 on success); a hit of the loop detector is
a circular-reference error; a cache hit returns the cached object counted
up and promotes its node to most-recently-used; otherwise the saved main
stream offset is captured and the object is materialised from its classic
offset or from its containing object stream, and the saved offset is
restored on the paths that do so in the source. -/
def pdfi_dereference (c : Ctx) (obj gen : Nat) : Int × Ctx × Option ObjId :=
  if obj ≥ c.xrefSize then
    let c := { c with pdfErrors := c.pdfErrors ||| E_PDF_BADOBJNUMBER }
    if c.stopOnError then (gs_error_rangecheck, c, none)
    else
      match c.alloc { type := .tNull } with
      | (code, c, oid) =>
        if code = 0 then (code, countup c oid, some oid)
        else (code, c, none)
  else
    let entry := xrefGetD c obj
    if entry.objectNum = 0 then (gs_error_undefined, c, none)
    else if entry.free then
      match c.alloc { type := .tNull } with
      | (code, c, oid) =>
        if code > 0 then (code, countup c oid, some oid)
        else (code, c, some oid)
    else if c.loopDetection.isSome ∧ pdfi_loop_detector_check_object c obj then
      (gs_error_circular_reference, c, none)
    else
      let afterResolve : Int × Ctx × Option ObjId :=
        match entry.cache with
        | some coid =>
          let c := countup c coid
          let c :=
            if c.cacheList ≠ [] ∧ c.cacheList.getLast? ≠ some coid then
              { c with cacheList := (c.cacheList.erase coid) ++ [coid] }
            else c
          (0, c, some coid)
        | none =>
          let saved := c.main.pos
          if entry.compressed then
            let compressedEntry := xrefGetD c entry.streamNum
            let acquired : Int × Ctx × ObjId :=
              match compressedEntry.cache with
              | none =>
                let c := { c with main := c.main.seekTo compressedEntry.offset }
                match pdfi_read_object_of_type c c.main .tDict with
                | (code, c', s) =>
                  let c := { c' with main := s }
                  if code < 0 then (code, { c with main := c.main.seekTo saved }, 0)
                  else
                    let comp := (c.top 1).getD 0
                    let c := countup c comp
                    (0, pdfiPop c 1, comp)
              | some coid => (0, countup c coid, coid)
            match acquired with
            | (code, c, comp) =>
            if code < 0 then (code, c, none)
            else
              match pdfi_dict_get_type c comp nameTypeBytes .tName with
              | (code, c, o) =>
              if code < 0 then
                (code, { countdown c comp with main := c.main.seekTo saved }, none)
              else if ((c.obj o).map (·.strData)) ≠ some nameObjStmBytes then
                let c := countdown (countdown c o) comp
                (gs_error_syntaxerror, { c with main := c.main.seekTo saved }, none)
              else
                let c := countdown c o
                match pdfi_dict_get_int c comp nameNBytes with
                | (code, c, numEntries) =>
                if code < 0 then
                  (code, { countdown c comp with main := c.main.seekTo saved }, none)
                else if numEntries < 0 ∨ numEntries > (c.xrefSize : Int) then
                  (gs_error_rangecheck,
                   { countdown c comp with main := c.main.seekTo saved }, none)
                else
                  let soff := ((c.obj comp).map (·.streamOffset)).getD 0
                  let c := { c with main := c.main.seekTo soff }
                  match pdfi_filter c with
                  | (code, cs) =>
                  if code < 0 then
                    (code, { countdown c comp with main := c.main.seekTo saved }, none)
                  else
                    match objStmPairsLoop entry.objIndex 0 numEntries.toNat c cs 0 with
                    | (code, c, cs, memberOff) =>
                    if code < 0 then
                      (code, { countdown c comp with main := c.main.seekTo saved }, none)
                    else
                      match skipBytesLoop memberOff.toNat cs with
                      | none => (gs_error_ioerror, c, none)
                      | some cs =>
                        match pdfi_read_token (tokenFuel cs) c cs with
                        | (code, c, cs) =>
                        if code < 0 then
                          (code, { countdown c comp with main := c.main.seekTo saved }, none)
                        else
                          let composite :=
                            c.topType 1 = some .tArrayMark ∨ c.topType 1 = some .tDictMark
                          let startDepth := c.depth
                          match (if composite then
                                   objStmMemberLoop startDepth (tokenFuel cs) c cs
                                 else (0, c, cs)) with
                          | (code, c, _cs) =>
                          if code < 0 then
                            (code, { countdown c comp with main := c.main.seekTo saved }, none)
                          else
                            let oid := (c.top 1).getD 0
                            let c := c.modObj oid fun d =>
                              { d with objectNum := obj, generationNum := gen }
                            let c := countup c oid
                            let c := pdfiPop c 1
                            let c := countdown c comp
                            (0, { c with main := c.main.seekTo saved }, some oid)
          else
            let c := { c with main := c.main.seekTo entry.offset }
            match pdfi_read_object c c.main with
            | (code, c', s) =>
              let c := { c' with main := s }
              if code < 0 then (code, { c with main := c.main.seekTo saved }, none)
              else
                let oid := (c.top 1).getD 0
                let c := pdfiPop c 1
                if ((c.obj oid).map (·.objectNum)) = some obj then
                  let c := countup c oid
                  (0, { c with main := c.main.seekTo saved }, some oid)
                else (gs_error_undefined, c, some oid)
      match afterResolve with
      | (code, c, oid) =>
        if code < 0 then (code, c, oid)
        else
          if c.loopDetection.isSome then
            let onum := ((oid.bind c.obj).map (·.objectNum)).getD 0
            match pdfi_loop_detector_add_object c onum with
            | (acode, c) =>
              if acode < 0 then (acode, c, oid)
              else (0, c, oid)
          else (0, c, oid)

/-! ### Repair (`pdfi_repair_add_object`, `pdfi_repair_file`, part_002
lines 1788–2146) -/

/-- Modelling constant for `sizeof(xref_entry)` in the 32-bit `memset`
guard of `pdfi_repair_add_object`; only the order of magnitude matters. -/
def sizeofXrefEntry : Nat := 40

/-- `pdfi_repair_add_object` (part_002 lines 1788–1842): allocate or grow
the xref table to cover `obj` (new entries zeroed, existing entries
copied), then unconditionally overwrite entry `obj` as an in-use classic
entry with the given generation and offset; the entry's cache back-pointer
is not touched. -/
def pdfi_repair_add_object (c : Ctx) (obj gen offset : Nat) : Int × Ctx :=
  if obj ≥ 0x7ffffff / sizeofXrefEntry then (gs_error_rangecheck, c)
  else
    let c :=
      if c.xrefSize = 0 then
        { c with xref := List.replicate (obj + 1) {}, xrefSize := obj + 1 }
      else if c.xrefSize < obj + 1 then
        { c with xref := c.xref ++ List.replicate (obj + 1 - c.xref.length) {},
                 xrefSize := obj + 1 }
      else c
    let e := xrefGetD c obj
    (0, xrefSet c obj { e with compressed := false, free := false, objectNum := obj,
                               gen := gen, offset := offset })

/-- The `%PDF` header search of `pdfi_repair_file` (part_002 lines
1862–1879): the naive prefix automaton over the bytes (an index that is
advanced on match and reset to 0 on mismatch). -/
def repairScanForPdf : Nat → PStream → Nat → Bool × PStream
  | 0, s, _ => (false, s)
  | fuel + 1, s, idx =>
    if idx ≥ 4 then (true, s)
    else
      match s.readByte with
      | (none, s) => (false, s)
      | (some b, s) =>
        if [0x25, 0x50, 0x44, 0x46].get? idx = some b then repairScanForPdf fuel s (idx + 1)
        else repairScanForPdf fuel s 0

/-- The literal `endstream` search of the repair first pass (part_002
lines 1937–1948), the same naive automaton. -/
def repairScanEndstream : Nat → PStream → Nat → PStream
  | 0, s, _ => s
  | fuel + 1, s, idx =>
    if idx ≥ 9 then s
    else
      match s.readByte with
      | (none, s) => s
      | (some b, s) =>
        if kwEndstreamBytes.get? idx = some b then repairScanEndstream fuel s (idx + 1)
        else repairScanEndstream fuel s 0

/-- The token loop after an `endstream` has been scanned over (part_002
lines 1949–1968): look for `endobj`, recording the object on success. -/
def repairStreamEndobjLoop (objnum gennum offset : Nat) :
    Nat → Ctx → PStream → Int × Ctx × PStream
  | 0, c, s => (gs_error_unknownerror, c, s)
  | fuel + 1, c, s =>
    match pdfi_read_token (tokenFuel s) c s with
    | (code, c, s) =>
    if code < 0 then
      if code ≠ gs_error_VMerror ∧ code ≠ gs_error_ioerror then
        if s.eof then (0, c, s) else repairStreamEndobjLoop objnum gennum offset fuel c s
      else (code, c, s)
    else if c.topType 1 = some .tKeyword ∧ c.topKey 1 = some .kEndObj then
      match pdfi_repair_add_object c objnum gennum offset with
      | (code2, c) =>
        if code2 < 0 then
          if code2 ≠ gs_error_VMerror ∧ code2 ≠ gs_error_ioerror then
            if s.eof then (0, c, s) else repairStreamEndobjLoop objnum gennum offset fuel c s
          else (code2, c, s)
        else (0, c, s)
    else if s.eof then (0, c, s)
    else repairStreamEndobjLoop objnum gennum offset fuel c s

/-- The object-body loop of the repair first pass (part_002 lines
1913–1978): after `N G obj`, read tokens until `endobj` (record the
object), `stream` (scan for the literal `endstream`, then look for
`endobj`), any other keyword (abandon), or end of data. -/
def repairObjBodyLoop (objnum gennum offset : Nat) :
    Nat → Ctx → PStream → Int × Ctx × PStream
  | 0, c, s => (gs_error_unknownerror, c, s)
  | fuel + 1, c, s =>
    match pdfi_read_token (tokenFuel s) c s with
    | (code, c, s) =>
    if code < 0 then
      if code ≠ gs_error_VMerror ∧ code ≠ gs_error_ioerror then
        repairObjBodyLoop objnum gennum offset fuel c s
      else (code, c, s)
    else if s.eof then (0, c, s)
    else if c.topType 1 = some .tKeyword then
      if c.topKey 1 = some .kEndObj then
        match pdfi_repair_add_object c objnum gennum offset with
        | (code2, c) =>
          if code2 < 0 then (code2, c, s)
          else (0, pdfiClearStack c, s)
      else if c.topKey 1 = some .kStream then
        let s := repairScanEndstream (s.data.length - s.pos + 2) s 0
        match repairStreamEndobjLoop objnum gennum offset (tokenFuel s) c s with
        | (code2, c, s) =>
          if code2 < 0 then (code2, c, s)
          else (0, pdfiClearStack c, s)
      else (0, pdfiClearStack c, s)
    else repairObjBodyLoop objnum gennum offset fuel c s

/-- One iteration structure of the inner token loop of the repair first
pass (part_002 lines 1887–2004).  Returns, besides the context and stream,
the persisting `object_num`/`generation_num` locals, the current candidate
offset, and whether the loop was left by the `obj`-pattern `break` (so the
outer loop resumes with a fresh offset) rather than by end of data. -/
def repairInnerLoop : Nat → Ctx → PStream → Nat → Nat → Nat →
    Int × Ctx × PStream × Nat × Nat × Bool
  | 0, c, s, onum, gnum, _ => (gs_error_unknownerror, c, s, onum, gnum, false)
  | fuel + 1, c, s, onum, gnum, off =>
    match pdfi_read_token (tokenFuel s) c s with
    | (code, c, s) =>
    if code < 0 then
      if code ≠ gs_error_VMerror ∧ code ≠ gs_error_ioerror then
        let c := pdfiClearStack c
        let off := s.pos
        if s.eof then (0, c, s, onum, gnum, false)
        else repairInnerLoop fuel c s onum gnum off
      else (code, c, s, onum, gnum, false)
    else if c.depth > 0 ∧ c.topType 1 = some .tKeyword then
      if c.topKey 1 = some .kObj then
        if c.depth < 3 ∨ c.topType 2 ≠ some .tInt then
          let c := pdfiClearStack c
          if s.eof then (0, c, s, onum, gnum, false)
          else repairInnerLoop fuel c s onum gnum off
        else
          let onum := (c.topInt 3).toNat
          let gnum := (c.topInt 2).toNat
          let c := pdfiClearStack c
          match repairObjBodyLoop onum gnum off (tokenFuel s) c s with
          | (code2, c, s) =>
            if code2 < 0 then (code2, c, s, onum, gnum, false)
            else (0, c, s, onum, gnum, true)
      else if c.topKey 1 = some .kEndObj then
        match pdfi_repair_add_object c onum gnum off with
        | (code2, c) =>
          if code2 < 0 then (code2, c, s, onum, gnum, false)
          else
            let c := pdfiClearStack c
            if s.eof then (0, c, s, onum, gnum, false)
            else repairInnerLoop fuel c s onum gnum off
      else if c.topKey 1 = some .kStartXref then
        match pdfi_read_token (tokenFuel s) c s with
        | (code2, c, s) =>
          if code2 < 0 ∧ code2 ≠ gs_error_VMerror ∧ code2 ≠ gs_error_ioerror then
            if s.eof then (0, c, s, onum, gnum, false)
            else repairInnerLoop fuel c s onum gnum off
          else if code2 < 0 then (code2, c, s, onum, gnum, false)
          else
            let off := s.pos
            let c := pdfiClearStack c
            if s.eof then (0, c, s, onum, gnum, false)
            else repairInnerLoop fuel c s onum gnum off
      else
        let off := s.pos
        let c := pdfiClearStack c
        if s.eof then (0, c, s, onum, gnum, false)
        else repairInnerLoop fuel c s onum gnum off
    else
      let c := if c.depth > 0 ∧ c.topType 1 ≠ some .tInt then pdfiClearStack c else c
      if s.eof then (0, c, s, onum, gnum, false)
      else repairInnerLoop fuel c s onum gnum off

/-- The outer loop of the repair first pass (part_002 lines 1885–2005):
capture the candidate offset, run the inner loop, restart while the inner
loop broke out after an object pattern and the stream is not at end of
data. -/
def repairOuterLoop : Nat → Ctx → PStream → Nat → Nat → Int × Ctx × PStream
  | 0, c, s, _, _ => (gs_error_unknownerror, c, s)
  | fuel + 1, c, s, onum, gnum =>
    let off := s.pos
    match repairInnerLoop (tokenFuel s) c s onum gnum off with
    | (code, c, s, onum, gnum, broke) =>
      if code < 0 then (code, c, s)
      else if broke ∧ ¬ s.eof then repairOuterLoop fuel c s onum gnum
      else (0, c, s)

/-- The member-registration loop of the repair second pass (part_002 lines
2099–2125): for each of the `N` header pairs of an ObjStm, register the
member object number as a compressed entry of container `i` at index `j`;
failures of individual reads are skipped, a member number below 1 aborts
the whole repair.  The pair `(hard, code)` distinguishes the aborting
return from the last-iteration code that the caller tests afterwards. -/
def repairPass2Members (i : Nat) : Nat → Nat → Ctx → PStream → Bool × Int × Ctx × PStream
  | _, 0, c, cs => (false, 0, c, cs)
  | j, rem + 1, c, cs =>
    match pdfi_read_token (tokenFuel cs) c cs with
    | (code, c, cs) =>
    if code = 0 then
      if c.topType 1 = some .tInt then
        let objnumI := c.topInt 1
        let c := pdfiPop c 1
        match pdfi_read_token (tokenFuel cs) c cs with
        | (code2, c, cs) =>
        if code2 = 0 then
          if c.topType 1 = some .tInt then
            if objnumI < 1 then (true, gs_error_rangecheck, pdfiClearStack c, cs)
            else
              let objnum := objnumI.toNat
              let e := xrefGetD c objnum
              let c := xrefSet c objnum
                { e with compressed := true, free := false, objectNum := objnum,
                         streamNum := i, objIndex := j }
              repairPass2Members i (j + 1) rem c cs
          else repairPass2Members i (j + 1) rem c cs
        else repairPass2Members i (j + 1) rem c cs
      else repairPass2Members i (j + 1) rem c cs
    else repairPass2Members i (j + 1) rem c cs

/-- The per-entry token loop of the repair second pass (part_002 lines
2026–2141): from a recorded object's offset, read tokens; on `endobj` with
a dictionary below, set the document Root if its `/Type` is `Catalog`; on
`stream` with a dictionary below whose `/Type` is `ObjStm`, decode it and
register its members as compressed entries. -/
def repairPass2TokenLoop (i : Nat) : Nat → Ctx → PStream → Int × Ctx × PStream
  | 0, c, s => (gs_error_unknownerror, c, s)
  | fuel + 1, c, s =>
    match pdfi_read_token (tokenFuel s) c s with
    | (code, c, s) =>
    if s.eof ∨ (code < 0 ∧ code ≠ gs_error_ioerror ∧ code ≠ gs_error_VMerror) then (0, c, s)
    else if code < 0 then (code, c, s)
    else if c.topType 1 = some .tKeyword then
      if c.topKey 1 = some .kObj then repairPass2TokenLoop i fuel c s
      else if c.topKey 1 = some .kEndObj then
        if c.depth > 1 ∧ c.topType 2 = some .tDict then
          let d := (c.top 2).getD 0
          match pdfi_dict_get c d nameTypeBytes with
          | (code2, c, o) =>
            if code2 < 0 ∧ code2 ≠ gs_error_undefined then (code2, pdfiClearStack c, s)
            else
              let c :=
                if code2 = 0 ∧ ((c.obj o).map (·.type)) = some .tName ∧
                   ((c.obj o).map (·.strData)) = some nameCatalogBytes then
                  countup { c with root := some d } d
                else c
              (0, pdfiClearStack c, s)
        else (0, pdfiClearStack c, s)
      else if c.topKey 1 = some .kStream then
        if c.depth ≤ 1 then (0, pdfiClearStack c, s)
        else
          let d := (c.top 2).getD 0
          if c.topType 2 ≠ some .tDict then (0, pdfiClearStack c, s)
          else
            match pdfi_dict_get c d nameTypeBytes with
            | (code2, c, n) =>
            if code2 < 0 then
              if c.stopOnError ∨ code2 = gs_error_VMerror then (code2, pdfiClearStack c, s)
              else (0, pdfiClearStack c, s)
            else if ((c.obj n).map (·.type)) = some .tName ∧
                    ((c.obj n).map (·.strData)) = some nameObjStmBytes then
              match pdfi_filter { c with main := s } with
              | (fcode, cs) =>
                if fcode = 0 then
                  match pdfi_dict_get_int c d nameNBytes with
                  | (ncode, c, nv) =>
                    if ncode = 0 then
                      match repairPass2Members i 0 nv.toNat c cs with
                      | (hard, mcode, c, _) =>
                        if hard then (mcode, c, s)
                        else if mcode < 0 then
                          if c.stopOnError ∨ mcode = gs_error_VMerror then
                            (mcode, pdfiClearStack c, s)
                          else (0, pdfiClearStack c, s)
                        else (0, pdfiClearStack c, s)
                    else if ncode < 0 ∧ (c.stopOnError ∨ ncode = gs_error_VMerror) then
                      (ncode, pdfiClearStack c, s)
                    else (0, pdfiClearStack c, s)
                else if fcode < 0 ∧ (c.stopOnError ∨ fcode = gs_error_VMerror) then
                  (fcode, pdfiClearStack c, s)
                else (0, pdfiClearStack c, s)
            else (0, pdfiClearStack c, s)
      else repairPass2TokenLoop i fuel c s
    else repairPass2TokenLoop i fuel c s

/-- The driver of the repair second pass (part_002 lines 2019–2143): visit
every recorded entry in object-number order. -/
def repairPass2Drive : Nat → Nat → Ctx → PStream → Int × Ctx × PStream
  | 0, _, c, s => (0, c, s)
  | rem + 1, i, c, s =>
    if i ≥ c.xrefSize then (0, c, s)
    else if (xrefGetD c i).objectNum ≠ 0 then
      if (xrefGetD c i).offset > c.mainLength then (gs_error_rangecheck, c, s)
      else
        let s := s.seekTo (xrefGetD c i).offset
        match repairPass2TokenLoop i (tokenFuel s) c s with
        | (code, c, s) =>
          if code < 0 then (code, c, s)
          else repairPass2Drive rem (i + 1) c s
    else repairPass2Drive rem (i + 1) c s

/-- `pdfi_repair_file` (part_002 lines 1844–2146): locate a `%PDF` header,
first pass — scan the whole file for `N G obj` patterns recording classic
entries (last occurrence of an object number wins) —, then second pass —
open every recorded object, register ObjStm members as compressed entries
and set the Root from any dictionary whose `/Type` is `Catalog`. -/
def pdfi_repair_file (c : Ctx) : Int × Ctx :=
  let c := { c with repaired := true }
  let c := pdfiClearStack c
  let s := c.main.seekTo 0
  match repairScanForPdf (s.data.length + 2) s 0 with
  | (found, s) =>
    if ¬ found then (gs_error_undefined, { c with main := s })
    else
      let s := s.unread 4
      let s := pdfi_skip_comment s
      if s.eof then (gs_error_ioerror, { c with main := s })
      else
        match repairOuterLoop (s.data.length + 2) c s 0 0 with
        | (code, c, s) =>
          if code < 0 then (code, { c with main := s })
          else
            let s : PStream := { s with eof := false }
            if c.xrefSize < 1 then (gs_error_syntaxerror, { c with main := s })
            else
              match repairPass2Drive c.xrefSize 1 c s with
              | (code, c, s) => (code, { c with main := s })

/-! ### Composite allocation (`pdfi_alloc_object` composite cases, part_002
lines 121–159; `pdfi_array_alloc`, pdf_array.c lines 40–72) -/

/-- The `PDF_ARRAY` case of `pdfi_alloc_object` (part_002 lines 121–138):
the slot vector is allocated and `memset` to zero — every slot is a C
`NULL` pointer (`none`), no Null object is involved at this layer. -/
def pdfi_alloc_object_array (c : Ctx) (size : Nat) : Int × Ctx × ObjId :=
  c.alloc { type := .tArray, values := List.replicate size none }

/-- The `PDF_DICT` case of `pdfi_alloc_object` (part_002 lines 139–160):
both the key and the value vectors are `memset` to zero. -/
def pdfi_alloc_object_dict (c : Ctx) (size : Nat) : Int × Ctx × ObjId :=
  c.alloc { type := .tDict, values := List.replicate size none,
            dkeys := List.replicate size none }

/-- `pdfi_array_alloc` (pdf_array.c lines 40–72): allocate the array
through `pdfi_alloc_object`, then make one Null object and point every
slot at it, counting it up once per slot. -/
def pdfi_array_alloc (c : Ctx) (size : Nat) : Int × Ctx × ObjId :=
  match pdfi_alloc_object_array c size with
  | (code, c, a) =>
    if code < 0 then (code, c, a)
    else if size > 0 then
      let (_, c, n) := c.alloc { type := .tNull }
      let c := (List.range size).foldl (fun acc _ => countup acc n) c
      let c := c.modObj a fun d => { d with values := List.replicate size (some n) }
      (0, c, a)
    else (0, c, a)

/-! ### Indirect-reference chain resolution

Modelled from the spec: `pdfi_resolve_indirect` lives in pdf_deref.c, which
is not among the sources; the caller bracket — open a loop-detection scope,
resolve, close the scope — appears in `pdfi_mark_object`
(src/pdf/pdf_mark.c lines 256–262).  Resolution dereferences the object
number and, while the result is itself an indirect reference, follows it. -/

/-- Modelled from the spec: follow a chain of indirect references through
`pdfi_dereference` (pdf_deref.c is not among the sources).  The reference
released before each hop is the intermediate indirect object. -/
def resolveChainLoop : Nat → Ctx → Nat → Nat → Int × Ctx × Option ObjId
  | 0, c, _, _ => (gs_error_unknownerror, c, none)
  | fuel + 1, c, num, gen =>
    match pdfi_dereference c num gen with
    | (code, c, oid) =>
      if code < 0 then (code, c, oid)
      else
        match oid.bind c.obj with
        | some d =>
          if d.type = .tIndirect then
            resolveChainLoop fuel (countdown c (oid.getD 0)) d.refNum d.refGen
          else (0, c, oid)
        | none => (0, c, oid)

/-- Modelled from the spec: the caller pattern around a dereference chain —
mark a loop-detection scope, resolve the chain, clear the scope
(src/pdf/pdf_mark.c lines 256–262). -/
def resolveIndirectChain (c : Ctx) (num gen fuel : Nat) : Int × Ctx × Option ObjId :=
  match pdfi_loop_detector_mark c with
  | (_, c) =>
    match resolveChainLoop fuel c num gen with
    | (code, c, oid) => (code, pdfi_loop_detector_cleartomark c, oid)

/-! ### Concrete fixtures used by the theorems -/

/-- The bytes of `xyz3 0 obj << /Type /Catalog /Pages 4 0 R >> endobj tail`
(the spec's worked dereference example, preceded by three filler bytes so
the recorded offset is nontrivial). -/
def classicData : List Nat :=
  [0x78, 0x79, 0x7a, 0x33, 0x20, 0x30, 0x20, 0x6f, 0x62, 0x6a, 0x20, 0x3c,
   0x3c, 0x20, 0x2f, 0x54, 0x79, 0x70, 0x65, 0x20, 0x2f, 0x43, 0x61, 0x74,
   0x61, 0x6c, 0x6f, 0x67, 0x20, 0x2f, 0x50, 0x61, 0x67, 0x65, 0x73, 0x20,
   0x34, 0x20, 0x30, 0x20, 0x52, 0x20, 0x3e, 0x3e, 0x20, 0x65, 0x6e, 0x64,
   0x6f, 0x62, 0x6a, 0x20, 0x74, 0x61, 0x69, 0x6c]

/-- A context whose xref records object 3 as a classic entry at offset 3 of
`classicData`; the main stream stands at position 1. -/
def classicCtx : Ctx :=
  { xref := [{}, {}, {}, { objectNum := 3, offset := 3 }],
    xrefSize := 4,
    main := { data := classicData, pos := 1 },
    mainLength := 56 }

/-- A context whose xref records object 1 as a free entry. -/
def freeEntryCtx : Ctx :=
  { xref := [{}, { objectNum := 1, free := true }], xrefSize := 2,
    main := { data := [0x78] }, mainLength := 1 }

/-- The bytes of `_9 0 obj << /Type /ObjStm /N 2 >> stream RAWRAWRAWx
endstream endobj` (with a line feed after `stream`); the stream data
begins at offset 41. -/
def objstmData : List Nat :=
  [0x5f, 0x39, 0x20, 0x30, 0x20, 0x6f, 0x62, 0x6a, 0x20, 0x3c, 0x3c, 0x20,
   0x2f, 0x54, 0x79, 0x70, 0x65, 0x20, 0x2f, 0x4f, 0x62, 0x6a, 0x53, 0x74,
   0x6d, 0x20, 0x2f, 0x4e, 0x20, 0x32, 0x20, 0x3e, 0x3e, 0x20, 0x73, 0x74,
   0x72, 0x65, 0x61, 0x6d, 0x0a, 0x52, 0x41, 0x57, 0x52, 0x41, 0x57, 0x52,
   0x41, 0x57, 0x78, 0x20, 0x65, 0x6e, 0x64, 0x73, 0x74, 0x72, 0x65, 0x61,
   0x6d, 0x20, 0x65, 0x6e, 0x64, 0x6f, 0x62, 0x6a]

/-- Decoded ObjStm content `4 0 5 3 99 456 777 `: header pairs (4,0) and
(5,3); after the header the byte offset 3 skips over `99 `, so member
index 1 is the single token `456`, with a further token `777` behind it. -/
def objstmMembersScalar : List Nat :=
  [0x34, 0x20, 0x30, 0x20, 0x35, 0x20, 0x33, 0x20, 0x39, 0x39, 0x20, 0x34,
   0x35, 0x36, 0x20, 0x37, 0x37, 0x37, 0x20]

/-- Decoded ObjStm content `4 0 5 3 99 << /A 7 >> `: member index 1 is the
composite token `<< /A 7 >>`. -/
def objstmMembersComposite : List Nat :=
  [0x34, 0x20, 0x30, 0x20, 0x35, 0x20, 0x33, 0x20, 0x39, 0x39, 0x20, 0x3c,
   0x3c, 0x20, 0x2f, 0x41, 0x20, 0x37, 0x20, 0x3e, 0x3e, 0x20]

/-- Decoded ObjStm content `4 0 5 900 `: member index 1 claims byte offset
900, far beyond the decoded data, so the byte-skip loop hits end of data. -/
def objstmMembersBadOffset : List Nat :=
  [0x34, 0x20, 0x30, 0x20, 0x35, 0x20, 0x39, 0x30, 0x30, 0x20]

/-- A context whose xref records object 5 as member index 1 of the object
stream with object number 9, itself a classic entry at offset 1 of
`objstmData`; the main stream stands at position 7 and the decompression
codec yields `decoded` for every stream. -/
def compCtxWith (decoded : List Nat) : Ctx :=
  { xref := [{}, {}, {}, {}, {},
             { objectNum := 5, compressed := true, streamNum := 9, objIndex := 1 },
             {}, {}, {},
             { objectNum := 9, offset := 1 }],
    xrefSize := 10,
    main := { data := objstmData, pos := 7 },
    mainLength := 68,
    filters := fun _ => some decoded }

/-- The bytes of `5 0 obj 5 0 R endobj ` — object 5 refers to itself. -/
def cycleOneData : List Nat :=
  [0x35, 0x20, 0x30, 0x20, 0x6f, 0x62, 0x6a, 0x20, 0x35, 0x20, 0x30, 0x20,
   0x52, 0x20, 0x65, 0x6e, 0x64, 0x6f, 0x62, 0x6a, 0x20]

/-- A context for the direct cycle: object 5 at offset 0 of `cycleOneData`. -/
def cycleOneCtx : Ctx :=
  { xref := [{}, {}, {}, {}, {}, { objectNum := 5, offset := 0 }],
    xrefSize := 6, main := { data := cycleOneData }, mainLength := 21 }

/-- The bytes of `5 0 obj 7 0 R endobj 7 0 obj 5 0 R endobj ` — objects 5
and 7 refer to each other. -/
def cycleTwoData : List Nat :=
  [0x35, 0x20, 0x30, 0x20, 0x6f, 0x62, 0x6a, 0x20, 0x37, 0x20, 0x30, 0x20,
   0x52, 0x20, 0x65, 0x6e, 0x64, 0x6f, 0x62, 0x6a, 0x20, 0x37, 0x20, 0x30,
   0x20, 0x6f, 0x62, 0x6a, 0x20, 0x35, 0x20, 0x30, 0x20, 0x52, 0x20, 0x65,
   0x6e, 0x64, 0x6f, 0x62, 0x6a, 0x20]

/-- A context for the two-step cycle 5 -> 7 -> 5. -/
def cycleTwoCtx : Ctx :=
  { xref := [{}, {}, {}, {}, {}, { objectNum := 5, offset := 0 }, {},
             { objectNum := 7, offset := 21 }],
    xrefSize := 8, main := { data := cycleTwoData }, mainLength := 42 }

/-- The bytes of `5 0 obj 7 0 R endobj 7 0 obj 42 endobj ` — an acyclic
two-step chain ending at the integer 42. -/
def chainOkData : List Nat :=
  [0x35, 0x20, 0x30, 0x20, 0x6f, 0x62, 0x6a, 0x20, 0x37, 0x20, 0x30, 0x20,
   0x52, 0x20, 0x65, 0x6e, 0x64, 0x6f, 0x62, 0x6a, 0x20, 0x37, 0x20, 0x30,
   0x20, 0x6f, 0x62, 0x6a, 0x20, 0x34, 0x32, 0x20, 0x65, 0x6e, 0x64, 0x6f,
   0x62, 0x6a, 0x20]

/-- A context for the acyclic chain 5 -> 7 -> 42. -/
def chainOkCtx : Ctx :=
  { xref := [{}, {}, {}, {}, {}, { objectNum := 5, offset := 0 }, {},
             { objectNum := 7, offset := 21 }],
    xrefSize := 8, main := { data := chainOkData }, mainLength := 39 }

/-- The bytes of `3 0 obj 42 endobj `. -/
def scopeAddData : List Nat :=
  [0x33, 0x20, 0x30, 0x20, 0x6f, 0x62, 0x6a, 0x20, 0x34, 0x32, 0x20, 0x65,
   0x6e, 0x64, 0x6f, 0x62, 0x6a, 0x20]

/-- A context with an empty active loop-detection scope and object 3 as a
classic entry at offset 0 of `scopeAddData`. -/
def scopeAddCtx : Ctx :=
  { xref := [{}, {}, {}, { objectNum := 3, offset := 0 }], xrefSize := 4,
    loopDetection := some [], main := { data := scopeAddData },
    mainLength := 18 }

/-- A context whose xref records object 1 as a free entry while an active
loop-detection scope already contains the number 1. -/
def freeInScopeCtx : Ctx :=
  { xref := [{}, { objectNum := 1, free := true }], xrefSize := 2,
    loopDetection := some [1], main := { data := [0x78] }, mainLength := 1 }

/-- The bytes of a file for the repair pass: a `%PDF-1.4` header, object 5
twice (first body `111` at offset 9, then body `222` at offset 64), a
Catalog as object 3 at offset 28, and a dangling `startxref 999` tail. -/
def repairOneData : List Nat :=
  [0x25, 0x50, 0x44, 0x46, 0x2d, 0x31, 0x2e, 0x34, 0x0a, 0x35, 0x20, 0x30,
   0x20, 0x6f, 0x62, 0x6a, 0x20, 0x31, 0x31, 0x31, 0x20, 0x65, 0x6e, 0x64,
   0x6f, 0x62, 0x6a, 0x0a, 0x33, 0x20, 0x30, 0x20, 0x6f, 0x62, 0x6a, 0x20,
   0x3c, 0x3c, 0x20, 0x2f, 0x54, 0x79, 0x70, 0x65, 0x20, 0x2f, 0x43, 0x61,
   0x74, 0x61, 0x6c, 0x6f, 0x67, 0x20, 0x3e, 0x3e, 0x20, 0x65, 0x6e, 0x64,
   0x6f, 0x62, 0x6a, 0x0a, 0x35, 0x20, 0x30, 0x20, 0x6f, 0x62, 0x6a, 0x20,
   0x32, 0x32, 0x32, 0x20, 0x65, 0x6e, 0x64, 0x6f, 0x62, 0x6a, 0x0a, 0x73,
   0x74, 0x61, 0x72, 0x74, 0x78, 0x72, 0x65, 0x66, 0x0a, 0x39, 0x39, 0x39,
   0x0a, 0x25, 0x25, 0x45, 0x4f, 0x46]

/-- A fresh context holding `repairOneData` as its main stream and no xref
table at all. -/
def repairOneCtx : Ctx :=
  { main := { data := repairOneData }, mainLength := 102 }

/-- The bytes of a file for the repair pass with an object stream: object
9 at offset 9 is an ObjStm with 2 members, object 3 at offset 70 is a
Catalog. -/
def repairTwoData : List Nat :=
  [0x25, 0x50, 0x44, 0x46, 0x2d, 0x31, 0x2e, 0x34, 0x0a, 0x39, 0x20, 0x30,
   0x20, 0x6f, 0x62, 0x6a, 0x20, 0x3c, 0x3c, 0x20, 0x2f, 0x54, 0x79, 0x70,
   0x65, 0x20, 0x2f, 0x4f, 0x62, 0x6a, 0x53, 0x74, 0x6d, 0x20, 0x2f, 0x4e,
   0x20, 0x32, 0x20, 0x3e, 0x3e, 0x20, 0x73, 0x74, 0x72, 0x65, 0x61, 0x6d,
   0x0a, 0x58, 0x58, 0x58, 0x58, 0x65, 0x6e, 0x64, 0x73, 0x74, 0x72, 0x65,
   0x61, 0x6d, 0x20, 0x65, 0x6e, 0x64, 0x6f, 0x62, 0x6a, 0x0a, 0x33, 0x20,
   0x30, 0x20, 0x6f, 0x62, 0x6a, 0x20, 0x3c, 0x3c, 0x20, 0x2f, 0x54, 0x79,
   0x70, 0x65, 0x20, 0x2f, 0x43, 0x61, 0x74, 0x61, 0x6c, 0x6f, 0x67, 0x20,
   0x3e, 0x3e, 0x20, 0x65, 0x6e, 0x64, 0x6f, 0x62, 0x6a, 0x0a]

/-- A fresh context holding `repairTwoData`, whose codec decodes every
stream to the two-member header `4 0 5 3 `. -/
def repairTwoCtx : Ctx :=
  { main := { data := repairTwoData }, mainLength := 106,
    filters := fun _ => some [0x34, 0x20, 0x30, 0x20, 0x35, 0x20, 0x33, 0x20] }

/-- Literal-string body `a\nb)` (opening parenthesis already consumed). -/
def strEscNData : List Nat := [0x61, 0x5c, 0x6e, 0x62, 0x29]

/-- Literal-string body `a\rb)`. -/
def strEscRData : List Nat := [0x61, 0x5c, 0x72, 0x62, 0x29]

/-- Literal-string body `a\tb)`. -/
def strEscTData : List Nat := [0x61, 0x5c, 0x74, 0x62, 0x29]

/-- Literal-string body `a\bb)`. -/
def strEscBData : List Nat := [0x61, 0x5c, 0x62, 0x62, 0x29]

/-- Literal-string body `a\fb)`. -/
def strEscFData : List Nat := [0x61, 0x5c, 0x66, 0x62, 0x29]

/-- Literal-string body with a backslash directly followed by a LF. -/
def strEscEolData : List Nat := [0x61, 0x5c, 0x0a, 0x62, 0x29]

/-- Literal-string body with a backslash directly followed by a CR. -/
def strEscCrData : List Nat := [0x61, 0x5c, 0x0d, 0x62, 0x29]

/-- Read a literal-string body in a fresh context and report the code, the
bytes of the resulting string object, and the final cursor. -/
def readStringResult (body : List Nat) : Int × List Nat × Nat :=
  match pdfi_read_string {} { data := body } with
  | (code, c, s) => (code, (((c.obj 0).map (fun d => d.strData))).getD [], s.pos)

/-! ### Spec-side characterization of the number scan

These definitions follow the spec's words ("a malformed number (two signs,
two dots, missing digits) is tolerated by treating the value as 0 ...") and
are compared against the source-translated `readNumLoop`; they exist only
to state and prove the refinement. -/

/-- A byte the number scan accepts into the run: a digit, the decimal
point, or a sign. -/
def numChar (b : Nat) : Prop :=
  isDigitByte b = true ∨ b = 0x2e ∨ b = 0x2b ∨ b = 0x2d

/-- Spec-side fold computing the scan state after a run of number
characters: a second decimal point or a sign after the first position
flags the run malformed. -/
def numScanSpec : NumAcc → List Nat → NumAcc
  | acc, [] => acc
  | acc, b :: rest =>
    let acc1 :=
      if b = 0x2e then
        (if acc.real then { acc with malformed := true } else { acc with real := true })
      else if b = 0x2d ∨ b = 0x2b then
        (if acc.buf ≠ [] then { acc with malformed := true } else acc)
      else acc
    numScanSpec { acc1 with buf := acc1.buf ++ [b] } rest

/-- The spec's two malformed-number causes as a shape of the run: a second
decimal point, or a `+`/`-` sign not in the first position. -/
def malformedRunShape (run : List Nat) : Prop :=
  (∃ u v w, run = u ++ 0x2e :: v ++ 0x2e :: w) ∨
  (∃ u sg w, run = u ++ sg :: w ∧ u ≠ [] ∧ (sg = 0x2b ∨ sg = 0x2d))

/-- Extra cursor advance contributed by the run's terminator: a whitespace
terminator is consumed, a delimiter is pushed back, end of data adds
nothing. -/
def numTermAdj (tail : List Nat) : Nat :=
  match tail with
  | [] => 0
  | t :: _ => if iswhite t then 1 else 0

/-- Spec-side final stream of the number scan: after the run, a whitespace
terminator is consumed, a delimiter is pushed back, end of data latches
`eof`. -/
def numFinalStream (data : List Nat) (p : Nat) (run tail : List Nat) : PStream :=
  match tail with
  | [] => { data := data, pos := p + run.length, eof := true }
  | t :: _ =>
    if iswhite t then { data := data, pos := p + run.length + 1, eof := false }
    else { data := data, pos := p + run.length, eof := false }

/-- Terminator acceptable to the number scan: end of data, whitespace, or a
delimiter. -/
def numTermOK (tail : List Nat) : Bool :=
  match tail with
  | [] => true
  | t :: _ => iswhite t || isdelimiter t

/-- A two-object heap with object number 1 (id 0) cached in a cache of
capacity 1 and object number 2 (id 1) alive but uncached; used to witness
the cache theorems. -/
def cacheFixtureCtx : Ctx :=
  { heap := [some { type := .tInt, objectNum := 1 }, some { type := .tInt, objectNum := 2 }],
    refcnt := [2, 5],
    xref := [{}, { objectNum := 1, cache := some 0 }, { objectNum := 2 }],
    xrefSize := 3,
    cacheList := [0], cacheEntries := 1, maxCache := 1,
    main := { data := [0x78] }, mainLength := 1 }

/-- The tuple of `Ctx` fields that `pdfi_countdown` never writes (it only
touches `heap` and `refcnt`). -/
def Ctx.core (c : Ctx) :=
  (c.stack, c.xref, c.xrefSize, c.cacheList, c.cacheEntries, c.maxCache,
   c.pdfErrors, c.stopOnError, c.loopDetection, c.main, c.root)

/-! ## Theorems -/

theorem countdownFuel_core (fuel : Nat) : ∀ (c : Ctx) (i : ObjId),
    (countdownFuel fuel c i).core = c.core := by
  induction fuel with
  | zero => intro c i; rfl
  | succ n ih =>
    intro c i
    unfold countdownFuel
    cases h : c.obj i with
    | none => rfl
    | some d =>
      simp only []
      split
      · have aux : ∀ (cs : List ObjId) (c0 : Ctx),
            (cs.foldl (fun acc j => countdownFuel n acc j) c0).core = c0.core := by
          intro cs
          induction cs with
          | nil => intro c0; rfl
          | cons x xs ihx => intro c0; rw [List.foldl_cons, ihx, ih]
        rw [aux]
        rfl
      · rfl

theorem countdown_core (c : Ctx) (i : ObjId) : (countdown c i).core = c.core :=
  countdownFuel_core _ _ _

theorem countdown_cacheList (c : Ctx) (i : ObjId) :
    (countdown c i).cacheList = c.cacheList := by
  have h := countdown_core c i
  simp [Ctx.core, Prod.ext_iff] at h
  exact h.2.2.2.1

theorem countdown_cacheEntries (c : Ctx) (i : ObjId) :
    (countdown c i).cacheEntries = c.cacheEntries := by
  have h := countdown_core c i
  simp [Ctx.core, Prod.ext_iff] at h
  exact h.2.2.2.2.1

theorem countdown_xref (c : Ctx) (i : ObjId) :
    (countdown c i).xref = c.xref := by
  have h := countdown_core c i
  simp [Ctx.core, Prod.ext_iff] at h
  exact h.2.1

theorem countdown_eq_setRc (c : Ctx) (i : ObjId) (hobj : (c.obj i).isSome)
    (hrc : 2 ≤ c.rc i) : countdown c i = c.setRc i (c.rc i - 1) := by
  obtain ⟨d, hd⟩ := Option.isSome_iff_exists.mp hobj
  unfold countdown countdownFuel
  rw [hd]
  simp only
  rw [if_neg (by omega)]

theorem xrefGetD_xrefSet_ne (c : Ctx) (n m : Nat) (e : XrefEntry) (h : n ≠ m) :
    xrefGetD (xrefSet c n e) m = xrefGetD c m := by
  simp only [xrefGetD, xrefSet, List.getD, List.get?_eq_getElem?]
  rw [List.getElem?_set_ne h]

theorem cache_none_getD_set (L : List XrefEntry) (n : Nat) (e : XrefEntry)
    (he : e.cache = none) : ((L.set n e).getD n {}).cache = none := by
  by_cases h : n < L.length
  · simp [List.getD, List.getElem?_set_eq_of_lt _ h, he]
  · rw [List.set_eq_of_length_le (by omega), List.getD_eq_default _ _ (by omega)]

/-- C10: in `pdfi_read_string`, the escape `\n` produces the byte 0x0A,
`\r` produces 0x0A as well (not 0x0D), `\t` produces 0x09, `\b` produces
0x07 (BEL, not backspace 0x08), `\f` produces 0x0C, and a backslash
immediately followed by an end-of-line (LF or CR) produces no character;
in each case the reader consumes the whole body up to and including the
closing parenthesis. -/
theorem string_escape_bytes :
    readStringResult strEscNData = (0, [0x61, 0x0a, 0x62], 5) ∧
    readStringResult strEscRData = (0, [0x61, 0x0a, 0x62], 5) ∧
    readStringResult strEscTData = (0, [0x61, 0x09, 0x62], 5) ∧
    readStringResult strEscBData = (0, [0x61, 0x07, 0x62], 5) ∧
    readStringResult strEscFData = (0, [0x61, 0x0c, 0x62], 5) ∧
    readStringResult strEscEolData = (0, [0x61, 0x62], 5) ∧
    readStringResult strEscCrData = (0, [0x61, 0x62], 5) := by
  decide

/-- C1: `pdfi_dereference` documents that it returns an object whose
reference count includes the caller's reference (part_002 lines 312–314),
and the out-of-range, cache, classic and compressed branches do count the
returned object up — but the free-entry branch guards its count-up with
`if (code > 0)` where `pdfi_alloc_object` returns 0 on success, so a free
entry yields a Null object whose reference count is still 0: the code
contradicts its own contract.  At the failing input (object 1 recorded
free), the call succeeds and the returned object's count is 0, while the
classic branch at the worked example leaves count 2 (cache + caller) and
the tolerant out-of-range branch leaves count 1. -/
theorem dereference_free_branch_uncounted :
    (pdfi_dereference freeEntryCtx 1 0).1 = 0 ∧
    (pdfi_dereference freeEntryCtx 1 0).2.2 = some 0 ∧
    (((pdfi_dereference freeEntryCtx 1 0).2.1.obj 0).map (·.type)) = some .tNull ∧
    (pdfi_dereference freeEntryCtx 1 0).2.1.rc 0 = 0 ∧
    (pdfi_dereference classicCtx 3 0).2.2 = some 11 ∧
    (pdfi_dereference classicCtx 3 0).2.1.rc 11 = 2 ∧
    (pdfi_dereference freeEntryCtx 5 0).2.1.rc 0 = 1 := by
  decide

/-- C3 counterexample: the claim says an object number at or beyond the
allocated table size is a hard range error "regardless of any stop-on-error
mode"; but with `stoponerror` unset, dereferencing object 5 against a table
of size 2 succeeds (code 0) and returns a Null object — the range error is
raised only under `stoponerror`. -/
theorem out_of_range_tolerant_counterexample :
    (pdfi_dereference freeEntryCtx 5 0).1 = 0 ∧
    (((pdfi_dereference freeEntryCtx 5 0).2.1.obj 0).map (·.type)) = some .tNull := by
  decide

/-- C4: every error exit of `pdfi_dereference` is supposed to restore the
saved main-stream offset, but the byte-skip loop that seeks to a
compressed member's offset (part_002 lines 492–499) returns
`gs_error_ioerror` directly, without the restoring seek (and without
releasing the container).  At the failing input — a compressed entry whose
recorded member offset (900) lies beyond the decoded stream — the call
fails with the io error and the main stream is left at the object stream's
data offset 41 instead of the saved position 7. -/
theorem compressed_byte_skip_skips_restore :
    (pdfi_dereference (compCtxWith objstmMembersBadOffset) 5 0).1 = gs_error_ioerror ∧
    (compCtxWith objstmMembersBadOffset).main.pos = 7 ∧
    (pdfi_dereference (compCtxWith objstmMembersBadOffset) 5 0).2.1.main.pos = 41 := by
  decide

/-- C5 counterexample: after successfully resolving compressed object 5
from its object stream, the claim says the member object is inserted into
the object cache; but the xref entry of object 5 has no cache back-pointer
and the cache holds only the containing ObjStm dictionary (id 8). -/
theorem compressed_member_not_cached :
    (pdfi_dereference (compCtxWith objstmMembersScalar) 5 0).1 = 0 ∧
    (xrefGetD (pdfi_dereference (compCtxWith objstmMembersScalar) 5 0).2.1 5).cache = none ∧
    (pdfi_dereference (compCtxWith objstmMembersScalar) 5 0).2.1.cacheList = [8] := by
  decide

/-- C5 (amended): resolving a compressed entry parses exactly one value
token at the member's byte offset within the decoded object stream — at
the scalar fixture the member is the token `456` even though a further
token `777` follows it, and at the composite fixture the opening `<<`
consumes the complete one-entry dictionary — and the requested object
number 5 and generation 0 are assigned to the result; the member object is
not inserted into the object cache (its xref entry keeps no back-pointer;
only the containing ObjStm dictionary, id 8, is cached, under its own
object number 9), and the saved main-stream position 7 is restored. -/
theorem compressed_member_resolution :
    (pdfi_dereference (compCtxWith objstmMembersScalar) 5 0).2.2 = some 14 ∧
    (((pdfi_dereference (compCtxWith objstmMembersScalar) 5 0).2.1.obj 14).map
       (fun d => (d.type, d.intVal, d.objectNum, d.generationNum))) =
      some (.tInt, 456, 5, 0) ∧
    (pdfi_dereference (compCtxWith objstmMembersScalar) 5 0).2.1.rc 14 = 1 ∧
    (pdfi_dereference (compCtxWith objstmMembersScalar) 5 0).2.1.main.pos = 7 ∧
    (xrefGetD (pdfi_dereference (compCtxWith objstmMembersScalar) 5 0).2.1 9).cache = some 8 ∧
    (pdfi_dereference (compCtxWith objstmMembersComposite) 5 0).1 = 0 ∧
    (((pdfi_dereference (compCtxWith objstmMembersComposite) 5 0).2.1.obj 17).map
       (fun d => (d.type, d.entries, d.objectNum, d.generationNum))) =
      some (.tDict, 1, 5, 0) ∧
    (pdfi_dereference (compCtxWith objstmMembersComposite) 5 0).2.2 = some 17 ∧
    (xrefGetD (pdfi_dereference (compCtxWith objstmMembersComposite) 5 0).2.1 5).cache = none := by
  decide

/-- C2 counterexample: with a loop-detection scope active that already
contains object number 1, dereferencing object 1 — recorded as a *free*
entry — does not fail with a circular-reference error and does not add the
number to the scope: the tolerant free-entry branch returns a Null object
with success before the loop check runs.  This falsifies both "if a
loop-detection scope is active and the requested object number is already
on the current resolution chain, pdfi_dereference fails with a
circular-reference error" and "on successful resolution the object number
is added to the active detection scope" as universal statements. -/
theorem loop_scope_free_entry_counterexample :
    (pdfi_dereference freeInScopeCtx 1 0).1 = 0 ∧
    (pdfi_dereference freeInScopeCtx 1 0).1 ≠ gs_error_circular_reference ∧
    (pdfi_dereference freeInScopeCtx 1 0).2.1.loopDetection = some [1] := by
  decide

/-- C2 (amended): for object numbers that reach the resolution paths (in
range, recorded, and not free), an active loop-detection scope already
containing the number makes `pdfi_dereference` fail with the
circular-reference error, leaving the context untouched; the reference
cycles 5 -> 5 and 5 -> 7 -> 5 resolved through the caller bracket yield
the circular-reference error at every recursion budget large enough to
reach the revisit (so the recursion is bounded by the chain, never
unbounded), while the acyclic chain 5 -> 7 -> 42 resolves to the integer
42; and a successful resolution through those paths records the object
number in the active scope (object 3 here).  The tolerant early returns
for out-of-range and free entries bypass both the check and the
recording. -/
theorem loop_detection_rejects_cycles :
    (∀ c obj gen l, obj < c.xrefSize → (xrefGetD c obj).objectNum ≠ 0 →
       (xrefGetD c obj).free = false → c.loopDetection = some l → obj ∈ l →
       pdfi_dereference c obj gen = (gs_error_circular_reference, c, none)) ∧
    (∀ fuel, 2 ≤ fuel →
       (resolveIndirectChain cycleOneCtx 5 0 fuel).1 = gs_error_circular_reference) ∧
    (∀ fuel, 3 ≤ fuel →
       (resolveIndirectChain cycleTwoCtx 5 0 fuel).1 = gs_error_circular_reference) ∧
    ((resolveIndirectChain chainOkCtx 5 0 10).1 = 0 ∧
     (((resolveIndirectChain chainOkCtx 5 0 10).2.2.bind
         (resolveIndirectChain chainOkCtx 5 0 10).2.1.obj).map (·.intVal)) = some 42) ∧
    ((pdfi_dereference scopeAddCtx 3 0).1 = 0 ∧
     (pdfi_dereference scopeAddCtx 3 0).2.1.loopDetection = some [3]) := by
  refine ⟨?_, ?_, ?_, ?_, ?_⟩
  · intro c obj gen l h1 h2 h3 h4 h5
    unfold pdfi_dereference
    rw [if_neg (by omega : ¬ obj ≥ c.xrefSize)]
    rw [if_neg h2, if_neg (by simp [h3])]
    rw [if_pos]
    simp [h4, pdfi_loop_detector_check_object, h5]
  · intro fuel h
    obtain ⟨k, rfl⟩ : ∃ k, fuel = k + 2 := ⟨fuel - 2, by omega⟩
    rfl
  · intro fuel h
    obtain ⟨k, rfl⟩ : ∃ k, fuel = k + 3 := ⟨fuel - 3, by omega⟩
    rfl
  · decide
  · decide

/-- C2 witness: the general circular-reference conjunct applied at the
direct self-reference context with the scope `[5]` already holding the
requested number. -/
theorem loop_detection_rejects_cycles_witness :
    pdfi_dereference { cycleOneCtx with loopDetection := some [5] } 5 0 =
      (gs_error_circular_reference, { cycleOneCtx with loopDetection := some [5] }, none) :=
  loop_detection_rejects_cycles.1 { cycleOneCtx with loopDetection := some [5] } 5 0 [5]
    (by decide) (by decide) (by decide) rfl (by decide)

/-- C3 (amended): an object number at or beyond the allocated table size
always sets the sticky `E_PDF_BADOBJNUMBER` error bit, and is a hard
`gs_error_rangecheck` failure exactly when stop-on-error is set — with
stop-on-error unset it tolerantly resolves to a fresh Null object; inside
the table, a free entry resolves to a Null object, while an entry never
recorded at all (object number 0) fails with `gs_error_undefined`. -/
theorem dereference_range_and_free_defaults :
    (∀ c : Ctx, ∀ obj gen, obj ≥ c.xrefSize → c.stopOnError = true →
       pdfi_dereference c obj gen =
         (gs_error_rangecheck, { c with pdfErrors := c.pdfErrors ||| E_PDF_BADOBJNUMBER },
          none)) ∧
    (∀ c : Ctx, ∀ obj gen, obj ≥ c.xrefSize → c.stopOnError = false →
       (pdfi_dereference c obj gen).1 = 0 ∧
       (((pdfi_dereference c obj gen).2.1.obj c.heap.length).map (·.type)) = some .tNull ∧
       (pdfi_dereference c obj gen).2.1.pdfErrors = c.pdfErrors ||| E_PDF_BADOBJNUMBER ∧
       (pdfi_dereference c obj gen).2.2 = some c.heap.length) ∧
    (∀ c : Ctx, ∀ obj gen, obj < c.xrefSize → (xrefGetD c obj).objectNum = 0 →
       pdfi_dereference c obj gen = (gs_error_undefined, c, none)) ∧
    (∀ c : Ctx, ∀ obj gen, obj < c.xrefSize → (xrefGetD c obj).objectNum ≠ 0 →
       (xrefGetD c obj).free = true →
       (pdfi_dereference c obj gen).1 = 0 ∧
       (((pdfi_dereference c obj gen).2.1.obj c.heap.length).map (·.type)) = some .tNull ∧
       (pdfi_dereference c obj gen).2.2 = some c.heap.length) := by
  refine ⟨?_, ?_, ?_, ?_⟩
  · intro c obj gen h1 h2
    unfold pdfi_dereference
    rw [if_pos h1]
    simp [h2]
  · intro c obj gen h1 h2
    unfold pdfi_dereference
    rw [if_pos h1]
    simp [h2, Ctx.alloc, countup, Ctx.obj, Ctx.setRc, Ctx.rc]
  · intro c obj gen h1 h2
    unfold pdfi_dereference
    rw [if_neg (by omega : ¬ obj ≥ c.xrefSize)]
    rw [if_pos h2]
  · intro c obj gen h1 h2 h3
    unfold pdfi_dereference
    rw [if_neg (by omega : ¬ obj ≥ c.xrefSize)]
    rw [if_neg h2, if_pos h3]
    simp [Ctx.alloc, Ctx.obj]

/-- C3 witness: the four conjuncts applied at concrete inputs — object 5
against the size-2 table with and without stop-on-error, the never
recorded entry 0, and the free entry 1. -/
theorem dereference_range_and_free_defaults_witness :
    pdfi_dereference { freeEntryCtx with stopOnError := true } 5 0 =
      (gs_error_rangecheck,
       { { freeEntryCtx with stopOnError := true } with
           pdfErrors :=
             { freeEntryCtx with stopOnError := true }.pdfErrors ||| E_PDF_BADOBJNUMBER },
       none) ∧
    (pdfi_dereference freeEntryCtx 5 0).1 = 0 ∧
    pdfi_dereference freeEntryCtx 0 0 = (gs_error_undefined, freeEntryCtx, none) ∧
    (pdfi_dereference freeEntryCtx 1 0).1 = 0 :=
  ⟨dereference_range_and_free_defaults.1 _ 5 0 (by decide) rfl,
   (dereference_range_and_free_defaults.2.1 freeEntryCtx 5 0 (by decide) rfl).1,
   dereference_range_and_free_defaults.2.2.1 freeEntryCtx 0 0 (by decide) (by decide),
   (dereference_range_and_free_defaults.2.2.2 freeEntryCtx 1 0 (by decide) (by decide)
      (by decide)).1⟩

/-- C6: the object cache never exceeds its fixed capacity — an insertion
through `pdfi_add_to_cache` preserves `cacheEntries = |cacheList| ∧
cacheEntries ≤ MAX_OBJECT_CACHE_SIZE`; an insertion hitting the capacity
first evicts the least-recently-used entry, nulling the evicted object's
xref back-pointer (a subsequent lookup of that object number misses) and
decrementing its reference count, with the new object linked at the
most-recently-used end; and a dereference that hits the cache returns the
cached object counted up and relinks its node at the most-recently-used
end of a permuted, equally long list. -/
theorem cache_lru_bound_evict_promote :
    (∀ c : Ctx, ∀ o : ObjId, c.cacheEntries = c.cacheList.length →
       c.cacheEntries ≤ c.maxCache → 0 < c.maxCache →
       (pdfi_add_to_cache c o).2.cacheEntries = (pdfi_add_to_cache c o).2.cacheList.length ∧
       (pdfi_add_to_cache c o).2.cacheEntries ≤ c.maxCache) ∧
    (∀ c : Ctx, ∀ o l : ObjId, ∀ rest : List ObjId,
       c.cacheEntries = c.maxCache → c.cacheList = l :: rest →
       ¬ ((c.obj o).map (·.objectNum)).getD 0 > c.xrefSize →
       ((c.obj l).map (·.objectNum)).getD 0 ≠ ((c.obj o).map (·.objectNum)).getD 0 →
       (c.obj l).isSome → 2 ≤ c.rc l → l ≠ o → l < c.refcnt.length →
       (xrefGetD (pdfi_add_to_cache c o).2 (((c.obj l).map (·.objectNum)).getD 0)).cache
           = none ∧
       (pdfi_add_to_cache c o).2.rc l = c.rc l - 1 ∧
       (pdfi_add_to_cache c o).2.cacheList = rest ++ [o]) ∧
    (∀ c : Ctx, ∀ obj gen : Nat, ∀ coid : ObjId,
       obj < c.xrefSize → (xrefGetD c obj).objectNum ≠ 0 →
       (xrefGetD c obj).free = false → c.loopDetection = none →
       (xrefGetD c obj).cache = some coid → coid ∈ c.cacheList →
       coid < c.refcnt.length →
       (pdfi_dereference c obj gen).1 = 0 ∧
       (pdfi_dereference c obj gen).2.2 = some coid ∧
       (pdfi_dereference c obj gen).2.1.cacheList.getLast? = some coid ∧
       (pdfi_dereference c obj gen).2.1.cacheList.Perm c.cacheList ∧
       (pdfi_dereference c obj gen).2.1.rc coid = c.rc coid + 1) := by
  refine ⟨?_, ?_, ?_⟩
  · intro c o hlen hle hpos
    unfold pdfi_add_to_cache
    by_cases hb : ((c.obj o).map (·.objectNum)).getD 0 > c.xrefSize
    · simp only [hb, if_true]
      exact ⟨hlen, hle⟩
    · simp only [hb, if_false]
      by_cases hf : c.cacheEntries = c.maxCache
      · match hcl : c.cacheList with
        | [] => rw [hcl] at hlen; simp at hlen; omega
        | l :: rest =>
          simp only [hf, if_true, hcl]
          rw [if_neg (by decide : ¬ ((0:Int) < 0))]
          simp only [xrefSet, countup, Ctx.setRc, Ctx.rc, countdown_cacheList,
                     countdown_cacheEntries, List.length_append]
          rw [hcl] at hlen
          simp at hlen
          constructor
          · simp
            omega
          · omega
      · simp only [hf, if_false]
        simp [countup, xrefSet, Ctx.setRc]
        omega
  · intro c o l rest hf hcl hb hne hobj hrc2 hlo hlt
    unfold pdfi_add_to_cache
    simp only [hb, if_false, hf, if_true, hcl]
    rw [if_neg (by decide : ¬ ((0:Int) < 0))]
    refine ⟨?_, ?_, ?_⟩
    · simp only [countup, Ctx.setRc, Ctx.rc]
      rw [xrefGetD_xrefSet_ne _ _ _ _ (fun hEq => hne hEq.symm)]
      simp only [xrefGetD]
      rw [countdown_xref]
      simp only [xrefSet]
      exact cache_none_getD_set _ _ _ rfl
    · simp only [countup, Ctx.setRc, Ctx.rc, xrefSet]
      rw [countdown_eq_setRc _ _ ?hs ?hr]
      case hs => exact hobj
      case hr => exact hrc2
      simp only [Ctx.setRc, Ctx.rc]
      rw [show ∀ (L : List Nat) (v : Nat), (L.set o v).getD l 0 = L.getD l 0 from ?_]
      · rw [List.getD, List.get?_eq_getElem?, List.getElem?_set_eq_of_lt _ (by simpa using hlt)]
        rfl
      · intro L v
        rw [List.getD, List.getD, List.get?_eq_getElem?, List.get?_eq_getElem?,
            List.getElem?_set_ne (fun h => hlo h.symm)]
    · simp only [countup, Ctx.setRc, xrefSet]
      rw [countdown_cacheList]
  · intro c obj gen coid h1 h2 h3 h4 h5 h6 h7
    unfold pdfi_dereference
    rw [if_neg (by omega : ¬ obj ≥ c.xrefSize)]
    rw [if_neg h2, if_neg (by simp [h3])]
    rw [if_neg (by simp [h4, pdfi_loop_detector_check_object])]
    rw [h5]
    simp only [countup, Ctx.setRc, Ctx.rc]
    have hrc : (c.refcnt.set coid (c.refcnt.getD coid 0 + 1)).getD coid 0 =
        c.refcnt.getD coid 0 + 1 := by
      rw [List.getD, List.get?_eq_getElem?, List.getElem?_set_eq_of_lt _ (by simpa using h7)]
      rfl
    by_cases hl : c.cacheList.getLast? = some coid
    · simp only [hl, ne_eq, not_true_eq_false, and_false, if_false, if_true, h4,
                 Option.isSome_none, Bool.false_eq_true, Int.lt_irrefl]
      exact ⟨trivial, trivial, trivial, List.Perm.refl _, hrc⟩
    · have hnil : c.cacheList ≠ [] := List.ne_nil_of_mem h6
      simp only [hl, hnil, ne_eq, not_false_eq_true, and_self, if_true, if_false, h4,
                 Option.isSome_none, Bool.false_eq_true, Int.lt_irrefl]
      refine ⟨trivial, trivial, ?_, ?_, hrc⟩
      · exact List.getLast?_concat _
      · exact (List.perm_append_singleton _ _).trans (List.perm_cons_erase h6).symm

/-- C6 witness: the three conjuncts applied at the two-object fixture — an
insertion of object id 1 into the full one-slot cache (invariant kept,
id 0 evicted with its back-pointer cleared and count 2 dropped to 1), and
a cache-hit dereference of object number 1. -/
theorem cache_lru_bound_evict_promote_witness :
    ((pdfi_add_to_cache cacheFixtureCtx 1).2.cacheEntries =
       (pdfi_add_to_cache cacheFixtureCtx 1).2.cacheList.length ∧
     (pdfi_add_to_cache cacheFixtureCtx 1).2.cacheEntries ≤ cacheFixtureCtx.maxCache) ∧
    ((xrefGetD (pdfi_add_to_cache cacheFixtureCtx 1).2 1).cache = none ∧
     (pdfi_add_to_cache cacheFixtureCtx 1).2.rc 0 = cacheFixtureCtx.rc 0 - 1 ∧
     (pdfi_add_to_cache cacheFixtureCtx 1).2.cacheList = [] ++ [1]) ∧
    ((pdfi_dereference cacheFixtureCtx 1 0).1 = 0 ∧
     (pdfi_dereference cacheFixtureCtx 1 0).2.2 = some 0 ∧
     (pdfi_dereference cacheFixtureCtx 1 0).2.1.cacheList.getLast? = some 0 ∧
     (pdfi_dereference cacheFixtureCtx 1 0).2.1.cacheList.Perm cacheFixtureCtx.cacheList ∧
     (pdfi_dereference cacheFixtureCtx 1 0).2.1.rc 0 = cacheFixtureCtx.rc 0 + 1) :=
  ⟨cache_lru_bound_evict_promote.1 cacheFixtureCtx 1 (by decide) (by decide) (by decide),
   cache_lru_bound_evict_promote.2.1 cacheFixtureCtx 1 0 [] (by decide) (by decide)
     (by decide) (by decide) (by decide) (by decide) (by decide) (by decide),
   cache_lru_bound_evict_promote.2.2 cacheFixtureCtx 1 0 0 (by decide) (by decide)
     (by decide) (by decide) (by decide) (by decide) (by decide)⟩

/-- C7 counterexample: immediately after `pdfi_alloc_object` of a
one-element `PDF_ARRAY` or `PDF_DICT`, the slot vectors hold C `NULL`
pointers (`none`), not counted references to a shared Null object — the
pre-fill happens one layer up, in `pdfi_array_alloc`. -/
theorem alloc_object_slots_are_null :
    (((pdfi_alloc_object_array {} 1).2.1.obj 0).map (·.values)) = some [none] ∧
    (((pdfi_alloc_object_dict {} 1).2.1.obj 0).map (fun d => (d.dkeys, d.values))) =
      some ([none], [none]) := by
  decide

theorem countup_rc_self (c : Ctx) (i : ObjId) (h : i < c.refcnt.length) :
    (countup c i).rc i = c.rc i + 1 := by
  simp only [countup, Ctx.setRc, Ctx.rc]
  rw [List.getD, List.get?_eq_getElem?, List.getElem?_set_eq_of_lt _ (by simpa using h)]
  rfl

theorem foldl_countup_facts (i : ObjId) :
    ∀ (k : Nat) (c : Ctx), i < c.refcnt.length →
      ((List.range k).foldl (fun acc _ => countup acc i) c).rc i = c.rc i + k ∧
      ((List.range k).foldl (fun acc _ => countup acc i) c).heap = c.heap ∧
      ((List.range k).foldl (fun acc _ => countup acc i) c).refcnt.length = c.refcnt.length := by
  intro k
  induction k with
  | zero => intro c h; simp
  | succ n ih =>
    intro c h
    rw [List.range_succ, List.foldl_append]
    simp only [List.foldl_cons, List.foldl_nil]
    obtain ⟨h1, h2, h3⟩ := ih c h
    refine ⟨?_, ?_, ?_⟩
    · rw [countup_rc_self _ _ (by rw [h3]; exact h), h1]
      omega
    · rw [show ∀ (a : Ctx), (countup a i).heap = a.heap from fun _ => rfl, h2]
    · rw [show ∀ (a : Ctx), (countup a i).refcnt.length = a.refcnt.length from ?_, h3]
      intro a
      simp [countup, Ctx.setRc]

/-- C7 (amended): the base allocator `pdfi_alloc_object` leaves every
Array/Dict slot as a zeroed (NULL) pointer; it is the array-layer
constructor `pdfi_array_alloc` that then makes one shared Null object and
points every slot at it with one counted reference per slot, so an array
built through `pdfi_array_alloc` has no uninitialized slot: after the call
the array's slots all hold the Null object's id and the Null object's
reference count equals the array size. -/
theorem array_alloc_prefills_null (c : Ctx) (size : Nat) (hs : 0 < size)
    (hal : c.refcnt.length = c.heap.length) :
    (pdfi_array_alloc c size).1 = 0 ∧
    (pdfi_array_alloc c size).2.2 = c.heap.length ∧
    (((pdfi_array_alloc c size).2.1.obj c.heap.length).map (·.values)) =
        some (List.replicate size (some (c.heap.length + 1))) ∧
    (((pdfi_array_alloc c size).2.1.obj (c.heap.length + 1)).map (·.type)) = some .tNull ∧
    (pdfi_array_alloc c size).2.1.rc (c.heap.length + 1) = size := by
  unfold pdfi_array_alloc pdfi_alloc_object_array
  simp only [Ctx.alloc]
  rw [if_neg (by decide : ¬ ((0:Int) < 0)), if_pos hs]
  obtain ⟨hrc, hheap, hlen⟩ := foldl_countup_facts
    ((c.heap ++ [some ({ type := PdfObjType.tArray, values := List.replicate size none } : PdfObjData)]).length)
    size
    { c with heap := c.heap ++ [some ({ type := PdfObjType.tArray, values := List.replicate size none } : PdfObjData)] ++ [some ({ type := PdfObjType.tNull } : PdfObjData)],
             refcnt := c.refcnt ++ [0] ++ [0] }
    (by simp [hal])
  simp only [List.length_append, List.length_singleton] at hrc hheap hlen ⊢
  set arr : PdfObjData := { type := PdfObjType.tArray, values := List.replicate size none } with harr
  set nul : PdfObjData := { type := PdfObjType.tNull } with hnul
  have hobjF : ∀ (F : Ctx), F.heap = c.heap ++ [some arr] ++ [some nul] →
      F.obj (c.heap.length) = some arr := by
    intro F hF
    simp only [Ctx.obj, hF]
    rw [List.get?_append (by simp)]
    rw [List.get?_concat_length]
    rfl
  refine ⟨trivial, trivial, ?_, ?_, ?_⟩
  · unfold Ctx.modObj
    rw [hobjF _ hheap]
    simp only [Ctx.obj, Ctx.setObj]
    rw [List.get?_set_eq_of_lt _ (by rw [congrArg List.length hheap]; simp)]
    rfl
  · unfold Ctx.modObj
    rw [hobjF _ hheap]
    simp only [Ctx.obj, Ctx.setObj]
    rw [List.get?_set_ne _ _ (by omega)]
    rw [hheap]
    rw [show c.heap.length + 1 = (c.heap ++ [some arr]).length from by simp]
    rw [List.get?_concat_length]
    rfl
  · unfold Ctx.modObj
    rw [hobjF _ hheap]
    simp only [Ctx.setObj, Ctx.rc]
    have := hrc
    simp only [Ctx.rc] at this
    rw [this]
    rw [show c.refcnt ++ [0] ++ [0] = (c.refcnt ++ [0]) ++ [0] from rfl]
    rw [List.getD, show c.heap.length + 1 = (c.refcnt ++ [0]).length from by simp [hal]]
    rw [List.get?_concat_length]
    simp

/-- C7 witness: `array_alloc_prefills_null` applied to the empty context
and size 3. -/
theorem array_alloc_prefills_null_witness :
    (pdfi_array_alloc {} 3).1 = 0 ∧
    (pdfi_array_alloc {} 3).2.2 = ({} : Ctx).heap.length ∧
    (((pdfi_array_alloc {} 3).2.1.obj ({} : Ctx).heap.length).map (·.values)) =
        some (List.replicate 3 (some (({} : Ctx).heap.length + 1))) ∧
    (((pdfi_array_alloc {} 3).2.1.obj (({} : Ctx).heap.length + 1)).map (·.type)) =
        some .tNull ∧
    (pdfi_array_alloc {} 3).2.1.rc (({} : Ctx).heap.length + 1) = 3 :=
  array_alloc_prefills_null {} 3 (by decide) (by decide)

theorem numScanSpec_append (xs : List Nat) :
    ∀ (acc : NumAcc) (ys : List Nat),
      numScanSpec acc (xs ++ ys) = numScanSpec (numScanSpec acc xs) ys := by
  induction xs with
  | nil => intro acc ys; rfl
  | cons b rest ih =>
    intro acc ys
    simp only [List.cons_append, numScanSpec]
    exact ih _ _

theorem numScanSpec_buf (xs : List Nat) :
    ∀ acc : NumAcc, (numScanSpec acc xs).buf = acc.buf ++ xs := by
  induction xs with
  | nil => intro acc; simp [numScanSpec]
  | cons b rest ih =>
    intro acc
    simp only [numScanSpec]
    rw [ih]
    repeat' split
    all_goals simp

theorem numScanSpec_malformed_mono (xs : List Nat) :
    ∀ acc : NumAcc, acc.malformed = true → (numScanSpec acc xs).malformed = true := by
  induction xs with
  | nil => intro acc h; simpa [numScanSpec] using h
  | cons b rest ih =>
    intro acc h
    simp only [numScanSpec]
    apply ih
    repeat' split
    all_goals simp_all

theorem numScanSpec_real_mono (xs : List Nat) :
    ∀ acc : NumAcc, acc.real = true → (numScanSpec acc xs).real = true := by
  induction xs with
  | nil => intro acc h; simpa [numScanSpec] using h
  | cons b rest ih =>
    intro acc h
    simp only [numScanSpec]
    apply ih
    repeat' split
    all_goals simp_all

theorem numScanSpec_shape_malformed (run : List Nat) (h : malformedRunShape run) :
    (numScanSpec {} run).malformed = true := by
  rcases h with ⟨u, v, w, rfl⟩ | ⟨u, sg, w, rfl, hu, hsg⟩
  · have hs1 : (numScanSpec {} (u ++ 0x2e :: v)).real = true ∨
        (numScanSpec {} (u ++ 0x2e :: v)).malformed = true := by
      rw [numScanSpec_append]
      by_cases hr : (numScanSpec ({} : NumAcc) u).real = true
      · right
        simp only [numScanSpec, hr, if_true, if_pos rfl]
        exact numScanSpec_malformed_mono _ _ rfl
      · left
        simp only [numScanSpec, hr, if_false, if_pos rfl]
        exact numScanSpec_real_mono _ _ rfl
    rw [numScanSpec_append]
    rcases hs1 with hs1 | hs1
    · simp only [numScanSpec, hs1, if_true, if_pos rfl]
      exact numScanSpec_malformed_mono _ _ rfl
    · exact numScanSpec_malformed_mono _ _ hs1
  · rw [numScanSpec_append]
    have hbuf : (numScanSpec ({} : NumAcc) u).buf ≠ [] := by
      rw [numScanSpec_buf]
      simpa using hu
    simp only [numScanSpec]
    rw [if_neg (by rcases hsg with rfl | rfl <;> decide)]
    rw [if_pos (by rcases hsg with rfl | rfl <;> simp)]
    rw [if_pos hbuf]
    exact numScanSpec_malformed_mono _ _ rfl

theorem numScanSpec_errs (xs : List Nat) :
    ∀ acc : NumAcc, (numScanSpec acc xs).errs = acc.errs := by
  induction xs with
  | nil => intro acc; rfl
  | cons b rest ih =>
    intro acc
    simp only [numScanSpec]
    rw [ih]
    repeat' split
    all_goals simp

theorem numChar_class {b : Nat} (h : numChar b) :
    iswhite b = false ∧ isdelimiter b = false := by
  rcases h with hd | rfl | rfl | rfl
  · simp only [isDigitByte, Bool.and_eq_true, decide_eq_true_eq] at hd
    constructor
    · simp only [iswhite, Bool.or_eq_false_iff, decide_eq_false_iff_not]
      omega
    · simp only [isdelimiter, Bool.or_eq_false_iff, decide_eq_false_iff_not]
      omega
  · exact ⟨rfl, rfl⟩
  · exact ⟨rfl, rfl⟩
  · exact ⟨rfl, rfl⟩

theorem get_of_drop_cons {data : List Nat} {p b : Nat} {l : List Nat}
    (h : data.drop p = b :: l) : data.get? p = some b := by
  have h0 : (data.drop p).get? 0 = some b := by rw [h]; rfl
  rwa [List.get?_drop, Nat.add_zero] at h0

theorem getElem_of_drop_cons {data : List Nat} {p b : Nat} {l : List Nat}
    (h : data.drop p = b :: l) : data[p]? = some b := by
  rw [← List.get?_eq_getElem?]
  exact get_of_drop_cons h

theorem drop_of_drop_cons {data : List Nat} {p b : Nat} {l : List Nat}
    (h : data.drop p = b :: l) : data.drop (p + 1) = l := by
  have h0 : (data.drop p).drop 1 = l := by rw [h]; rfl
  rw [List.drop_drop] at h0
  simpa [Nat.add_comm] using h0

theorem numFinalStream_cons (data : List Nat) (p b : Nat) (rest tail : List Nat) :
    numFinalStream data (p + 1) rest tail = numFinalStream data p (b :: rest) tail := by
  cases tail with
  | nil =>
    simp only [numFinalStream, List.length_cons, PStream.mk.injEq, eq_self_iff_true,
      true_and, and_true]
    omega
  | cons t ts =>
    simp only [numFinalStream, List.length_cons]
    split
    · simp only [PStream.mk.injEq, eq_self_iff_true, true_and, and_true]
      omega
    · simp only [PStream.mk.injEq, eq_self_iff_true, true_and, and_true]
      omega

theorem skip_white_id (data : List Nat) (p : Nat) (b : Nat)
    (hget : data.get? p = some b) (hw : iswhite b = false) :
    skip_white { data := data, pos := p, eof := false } =
      { data := data, pos := p, eof := false } := by
  have hg : data[p]? = some b := by
    rw [← List.get?_eq_getElem?]
    exact hget
  simp [skip_white, skipWhiteLoop, PStream.readByte, List.get?_eq_getElem?, hg, hw,
    PStream.unread]


theorem readNumLoop_spec_false (run : List Nat) :
    ∀ (tail data : List Nat) (p : Nat) (acc : NumAcc) (fuel : Nat),
      data.drop p = run ++ tail →
      (∀ b ∈ run, numChar b) →
      numTermOK tail = true →
      acc.buf.length + run.length ≤ 255 →
      run.length < fuel →
      readNumLoop false fuel { data := data, pos := p, eof := false } acc =
        (0, numFinalStream data p run tail, numScanSpec acc run) := by
  induction run with
  | nil =>
    intro tail data p acc fuel hdrop _ hterm _ hfuel
    obtain ⟨k, rfl⟩ : ∃ k, fuel = k + 1 := ⟨fuel - 1, by omega⟩
    rw [List.nil_append] at hdrop
    cases tail with
    | nil =>
      have hget : data[p]? = none := by
        have h0 : (data.drop p).get? 0 = none := by rw [hdrop]; rfl
        rw [List.get?_drop, Nat.add_zero] at h0
        rwa [List.get?_eq_getElem?] at h0
      simp [readNumLoop, PStream.readByte, List.get?_eq_getElem?, hget, numFinalStream,
        numScanSpec]
    | cons t ts =>
      have hget : data[p]? = some t := getElem_of_drop_cons hdrop
      by_cases hw : iswhite t = true
      · simp [readNumLoop, PStream.readByte, List.get?_eq_getElem?, hget, hw, numFinalStream,
          numScanSpec]
      · have hd : isdelimiter t = true := by
          simp only [numTermOK, Bool.or_eq_true] at hterm
          tauto
        simp [readNumLoop, PStream.readByte, List.get?_eq_getElem?, hget, hw, hd,
          numFinalStream, numScanSpec, PStream.unread]
  | cons b rest ih =>
    intro tail data p acc fuel hdrop hchars hterm hlen hfuel
    obtain ⟨k, rfl⟩ : ∃ k, fuel = k + 1 := ⟨fuel - 1, by omega⟩
    rw [List.cons_append] at hdrop
    have hget : data[p]? = some b := getElem_of_drop_cons hdrop
    have hnext : data.drop (p + 1) = rest ++ tail := drop_of_drop_cons hdrop
    have hb : numChar b := hchars b (List.mem_cons_self b rest)
    have hrest : ∀ x ∈ rest, numChar x := fun x hx => hchars x (List.mem_cons_of_mem b hx)
    obtain ⟨hwb, hdb⟩ := numChar_class hb
    have hfuel2 : rest.length < k := by
      simp only [List.length_cons] at hfuel
      omega
    have hlen1 : acc.buf.length + 1 + rest.length ≤ 255 := by
      simp only [List.length_cons] at hlen
      omega
    rcases hb with hdig | rfl | rfl | rfl
    · have hne1 : b ≠ 0x2e := by
        simp only [isDigitByte, Bool.and_eq_true, decide_eq_true_eq] at hdig
        omega
      have hne2 : b ≠ 0x2d := by
        simp only [isDigitByte, Bool.and_eq_true, decide_eq_true_eq] at hdig
        omega
      have hne3 : b ≠ 0x2b := by
        simp only [isDigitByte, Bool.and_eq_true, decide_eq_true_eq] at hdig
        omega
      have hih := ih tail data (p + 1) { acc with buf := acc.buf ++ [b] } k hnext hrest hterm
        (by simpa using hlen1) hfuel2
      simp only [readNumLoop, PStream.readByte, List.get?_eq_getElem?, hget, hwb, hdb,
        numScanSpec, Bool.false_eq_true, if_false, hne1, hne2, hne3, hdig, decide_False,
        Bool.or_self, ite_false, ite_true, not_true_eq_false, List.length_append,
        List.length_singleton, List.length_cons, List.length_nil]
      rw [if_neg (by simp [Int.lt_irrefl]), if_neg (by simp), if_neg (by omega)]
      rw [← numFinalStream_cons data p b rest tail]
      exact hih
    · by_cases hr : acc.real = true
      · have hih1 := ih tail data (p + 1)
          { buf := acc.buf ++ [0x2e], real := true, malformed := true, errs := acc.errs } k
          hnext hrest hterm (by simpa using hlen1) hfuel2
        simp only [readNumLoop, PStream.readByte, List.get?_eq_getElem?, hget, hwb, hdb,
          numScanSpec, Bool.false_eq_true, if_false, ite_false, if_true, ite_true,
          eq_self_iff_true, hr, List.length_append, List.length_singleton,
          List.length_cons, List.length_nil]
        rw [if_neg (by simp [Int.lt_irrefl]), if_neg (by simp), if_neg (by omega)]
        rw [← numFinalStream_cons data p 0x2e rest tail]
        exact hih1
      · have hih0 := ih tail data (p + 1)
          { acc with real := true, buf := acc.buf ++ [0x2e] } k hnext hrest hterm
          (by simpa using hlen1) hfuel2
        simp only [readNumLoop, PStream.readByte, List.get?_eq_getElem?, hget, hwb, hdb,
          numScanSpec, Bool.false_eq_true, if_false, ite_false, if_true, ite_true,
          eq_self_iff_true, hr, List.length_append, List.length_singleton,
          List.length_cons, List.length_nil]
        rw [if_neg (by simp [Int.lt_irrefl]), if_neg (by simp), if_neg (by omega)]
        rw [← numFinalStream_cons data p 0x2e rest tail]
        exact hih0
    · have e1 : ((0x2b : Nat) = 0x2e) = False := eq_false (by decide)
      have e2 : decide ((0x2b : Nat) = 0x2d) = false := by decide
      have e3 : (decide True : Bool) = true := by decide
      by_cases hbuf : acc.buf = []
      · have hih := ih tail data (p + 1) { acc with buf := [0x2b] } k hnext hrest
          hterm (by simp only [List.length_singleton]; omega) hfuel2
        simp only [readNumLoop, PStream.readByte, List.get?_eq_getElem?, hget, hwb, hdb,
          numScanSpec, Bool.false_eq_true, if_false, ite_false, if_true, ite_true,
          eq_self_iff_true, e1, e2, e3, Bool.false_or, Bool.or_true, or_true, true_or, or_false, false_or, ite_self, hbuf, ne_eq,
          not_true_eq_false, not_true, List.length_append, List.length_singleton,
          List.length_cons, List.length_nil]
        rw [if_neg (by simp [Int.lt_irrefl]), if_neg (by simp), if_neg (by omega)]
        rw [← numFinalStream_cons data p 0x2b rest tail]
        exact hih
      · have hih := ih tail data (p + 1)
          { acc with malformed := true, buf := acc.buf ++ [0x2b] } k hnext hrest hterm
          (by simpa using hlen1) hfuel2
        simp only [readNumLoop, PStream.readByte, List.get?_eq_getElem?, hget, hwb, hdb,
          numScanSpec, Bool.false_eq_true, if_false, ite_false, if_true, ite_true,
          eq_self_iff_true, e1, e2, e3, Bool.false_or, Bool.or_true, or_true, true_or, or_false, false_or, ite_self, hbuf, ne_eq,
          not_false_eq_true, List.length_append, List.length_singleton,
          List.length_cons, List.length_nil]
        rw [if_neg (by simp [Int.lt_irrefl]), if_neg (by simp), if_neg (by omega)]
        rw [← numFinalStream_cons data p 0x2b rest tail]
        exact hih
    · have e1 : ((0x2d : Nat) = 0x2e) = False := eq_false (by decide)
      have e2 : decide ((0x2d : Nat) = 0x2b) = false := by decide
      have e3 : (decide True : Bool) = true := by decide
      by_cases hbuf : acc.buf = []
      · have hih := ih tail data (p + 1) { acc with buf := [0x2d] } k hnext hrest
          hterm (by simp only [List.length_singleton]; omega) hfuel2
        simp only [readNumLoop, PStream.readByte, List.get?_eq_getElem?, hget, hwb, hdb,
          numScanSpec, Bool.false_eq_true, if_false, ite_false, if_true, ite_true,
          eq_self_iff_true, e1, e2, e3, Bool.true_or, Bool.or_false, or_true, true_or, or_false, false_or, ite_self, hbuf, ne_eq,
          not_true_eq_false, not_true, List.length_append, List.length_singleton,
          List.length_cons, List.length_nil]
        rw [if_neg (by simp [Int.lt_irrefl]), if_neg (by simp), if_neg (by omega)]
        rw [← numFinalStream_cons data p 0x2d rest tail]
        exact hih
      · have hih := ih tail data (p + 1)
          { acc with malformed := true, buf := acc.buf ++ [0x2d] } k hnext hrest hterm
          (by simpa using hlen1) hfuel2
        simp only [readNumLoop, PStream.readByte, List.get?_eq_getElem?, hget, hwb, hdb,
          numScanSpec, Bool.false_eq_true, if_false, ite_false, if_true, ite_true,
          eq_self_iff_true, e1, e2, e3, Bool.true_or, Bool.or_false, or_true, true_or, or_false, false_or, ite_self, hbuf, ne_eq,
          not_false_eq_true, List.length_append, List.length_singleton,
          List.length_cons, List.length_nil]
        rw [if_neg (by simp [Int.lt_irrefl]), if_neg (by simp), if_neg (by omega)]
        rw [← numFinalStream_cons data p 0x2d rest tail]
        exact hih


theorem readNumLoop_stop_syntax (run : List Nat) :
    ∀ (tail data : List Nat) (p : Nat) (acc : NumAcc) (fuel : Nat),
      data.drop p = run ++ tail →
      (∀ b ∈ run, numChar b) →
      (numScanSpec acc run).malformed = true →
      acc.malformed = false →
      run.length < fuel →
      (readNumLoop true fuel { data := data, pos := p, eof := false } acc).1 =
        gs_error_syntaxerror := by
  induction run with
  | nil =>
    intro tail data p acc fuel _ _ hmal hacc _
    simp only [numScanSpec] at hmal
    rw [hacc] at hmal
    exact absurd hmal (by simp)
  | cons b rest ih =>
    intro tail data p acc fuel hdrop hchars hmal hacc hfuel
    obtain ⟨k, rfl⟩ : ∃ k, fuel = k + 1 := ⟨fuel - 1, by omega⟩
    rw [List.cons_append] at hdrop
    have hget : data[p]? = some b := getElem_of_drop_cons hdrop
    have hnext : data.drop (p + 1) = rest ++ tail := drop_of_drop_cons hdrop
    have hb : numChar b := hchars b (List.mem_cons_self b rest)
    have hrest : ∀ x ∈ rest, numChar x := fun x hx => hchars x (List.mem_cons_of_mem b hx)
    obtain ⟨hwb, hdb⟩ := numChar_class hb
    have hfuel2 : rest.length < k := by
      simp only [List.length_cons] at hfuel
      omega
    rcases hb with hdig | rfl | rfl | rfl
    · have hne1 : b ≠ 0x2e := by
        simp only [isDigitByte, Bool.and_eq_true, decide_eq_true_eq] at hdig
        omega
      have hne2 : b ≠ 0x2d := by
        simp only [isDigitByte, Bool.and_eq_true, decide_eq_true_eq] at hdig
        omega
      have hne3 : b ≠ 0x2b := by
        simp only [isDigitByte, Bool.and_eq_true, decide_eq_true_eq] at hdig
        omega
      simp only [numScanSpec, hne1, hne2, hne3, or_self, ite_false, if_false] at hmal
      simp only [readNumLoop, PStream.readByte, List.get?_eq_getElem?, hget, hwb, hdb,
        Bool.false_eq_true, if_false, hne1, hne2, hne3, hdig, decide_False, Bool.or_self,
        ite_false, ite_true, not_true_eq_false, List.length_append, List.length_singleton,
        List.length_cons, List.length_nil]
      by_cases hlt : acc.buf.length + 1 > 255
      · rw [if_neg (by simp [Int.lt_irrefl]), if_neg (by simp), if_pos (by omega)]
      · rw [if_neg (by simp [Int.lt_irrefl]), if_neg (by simp), if_neg (by omega)]
        exact ih tail data (p + 1) _ k hnext hrest hmal hacc hfuel2
    · by_cases hr : acc.real = true
      · simp only [readNumLoop, PStream.readByte, List.get?_eq_getElem?, hget, hwb, hdb,
          Bool.false_eq_true, if_false, ite_false, if_true, ite_true, eq_self_iff_true, hr]
        rw [if_pos (show gs_error_syntaxerror < 0 by decide)]
      · simp only [numScanSpec, eq_self_iff_true, if_true, ite_true, hr, ite_false,
          if_false] at hmal
        simp only [readNumLoop, PStream.readByte, List.get?_eq_getElem?, hget, hwb, hdb,
          Bool.false_eq_true, if_false, ite_false, if_true, ite_true, eq_self_iff_true, hr,
          List.length_append, List.length_singleton, List.length_cons, List.length_nil]
        by_cases hlt : acc.buf.length + 1 > 255
        · rw [if_neg (by simp [Int.lt_irrefl]), if_neg (by simp), if_pos (by omega)]
        · rw [if_neg (by simp [Int.lt_irrefl]), if_neg (by simp), if_neg (by omega)]
          exact ih tail data (p + 1) _ k hnext hrest hmal hacc hfuel2
    · have e1 : ((0x2b : Nat) = 0x2e) = False := eq_false (by decide)
      have e2 : decide ((0x2b : Nat) = 0x2d) = false := by decide
      have e3 : (decide True : Bool) = true := by decide
      by_cases hbuf : acc.buf = []
      · simp only [numScanSpec, e1, e2, e3, eq_self_iff_true, or_true, true_or, or_false,
          false_or, ite_self, ite_true, if_true, ite_false, if_false, hbuf, ne_eq,
          not_true_eq_false, not_true] at hmal
        simp only [readNumLoop, PStream.readByte, List.get?_eq_getElem?, hget, hwb, hdb,
          Bool.false_eq_true, if_false, ite_false, if_true, ite_true, eq_self_iff_true,
          e1, e2, e3, Bool.false_or, Bool.or_true, or_true, true_or, or_false, false_or,
          ite_self, hbuf, ne_eq, not_true_eq_false, not_true, List.length_append,
          List.length_singleton, List.length_cons, List.length_nil]
        by_cases hlt : 1 > 255
        · rw [if_neg (by simp [Int.lt_irrefl]), if_neg (by simp), if_pos (by omega)]
        · rw [if_neg (by simp [Int.lt_irrefl]), if_neg (by simp), if_neg (by omega)]
          exact ih tail data (p + 1) _ k hnext hrest hmal hacc hfuel2
      · simp only [readNumLoop, PStream.readByte, List.get?_eq_getElem?, hget, hwb, hdb,
          Bool.false_eq_true, if_false, ite_false, if_true, ite_true, eq_self_iff_true,
          e1, e2, e3, Bool.false_or, Bool.or_true, hbuf, ne_eq, not_false_eq_true]
        rw [if_pos (show gs_error_syntaxerror < 0 by decide)]
    · have e1 : ((0x2d : Nat) = 0x2e) = False := eq_false (by decide)
      have e2 : decide ((0x2d : Nat) = 0x2b) = false := by decide
      have e3 : (decide True : Bool) = true := by decide
      by_cases hbuf : acc.buf = []
      · simp only [numScanSpec, e1, e2, e3, eq_self_iff_true, or_true, true_or, or_false,
          false_or, ite_self, ite_true, if_true, ite_false, if_false, hbuf, ne_eq,
          not_true_eq_false, not_true] at hmal
        simp only [readNumLoop, PStream.readByte, List.get?_eq_getElem?, hget, hwb, hdb,
          Bool.false_eq_true, if_false, ite_false, if_true, ite_true, eq_self_iff_true,
          e1, e2, e3, Bool.true_or, Bool.or_false, or_true, true_or, or_false, false_or,
          ite_self, hbuf, ne_eq, not_true_eq_false, not_true, List.length_append,
          List.length_singleton, List.length_cons, List.length_nil]
        by_cases hlt : 1 > 255
        · rw [if_neg (by simp [Int.lt_irrefl]), if_neg (by simp), if_pos (by omega)]
        · rw [if_neg (by simp [Int.lt_irrefl]), if_neg (by simp), if_neg (by omega)]
          exact ih tail data (p + 1) _ k hnext hrest hmal hacc hfuel2
      · simp only [readNumLoop, PStream.readByte, List.get?_eq_getElem?, hget, hwb, hdb,
          Bool.false_eq_true, if_false, ite_false, if_true, ite_true, eq_self_iff_true,
          e1, e2, e3, Bool.true_or, Bool.or_false, hbuf, ne_eq, not_false_eq_true]
        rw [if_pos (show gs_error_syntaxerror < 0 by decide)]


theorem getD_concat_length (l : List Nat) (a d : Nat) : (l ++ [a]).getD l.length d = a := by
  simp only [List.getD, List.get?_eq_getElem?, List.getElem?_concat_length, Option.getD_some]

theorem getD_set_self (l : List Nat) (n v d : Nat) (h : n < l.length) :
    (l.set n v).getD n d = v := by
  simp only [List.getD, List.get?_eq_getElem?, List.getElem?_set_eq_of_lt _ h, Option.getD_some]

/-- C8: when the token reader scans a malformed numeric run (a second
decimal point, or a `+`/`-` sign not in the first position) terminated by
whitespace, a delimiter or end of data, then without stop-on-error
`pdfi_read_num` succeeds (code 0), leaves the stream exactly at the end of
the run as given by `numFinalStream` (a whitespace terminator consumed, a
delimiter pushed back), sets the sticky `E_PDF_MALFORMEDNUMBER` bit in the
per-document error mask, and pushes a fresh `PDF_INT` of value 0 (counted
once) onto the stack; with stop-on-error set it instead returns
`gs_error_syntaxerror`. -/
theorem read_num_malformed_tolerated
    (c : Ctx) (data run tail : List Nat) (p : Nat)
    (hdrop : data.drop p = run ++ tail)
    (hshape : malformedRunShape run)
    (hchars : ∀ b ∈ run, numChar b)
    (hterm : numTermOK tail = true)
    (hlen : run.length ≤ 255)
    (hpar : c.refcnt.length = c.heap.length) :
    (c.stopOnError = false →
      (pdfi_read_num c { data := data, pos := p, eof := false }).1 = 0 ∧
      (pdfi_read_num c { data := data, pos := p, eof := false }).2.2 =
        numFinalStream data p run tail ∧
      (pdfi_read_num c { data := data, pos := p, eof := false }).2.1.pdfErrors =
        c.pdfErrors ||| E_PDF_MALFORMEDNUMBER ∧
      (pdfi_read_num c { data := data, pos := p, eof := false }).2.1.stack =
        c.heap.length :: c.stack ∧
      (pdfi_read_num c { data := data, pos := p, eof := false }).2.1.obj c.heap.length =
        some { type := .tInt, intVal := 0 } ∧
      (pdfi_read_num c { data := data, pos := p, eof := false }).2.1.rc c.heap.length = 1) ∧
    (c.stopOnError = true →
      (pdfi_read_num c { data := data, pos := p, eof := false }).1 = gs_error_syntaxerror) := by
  have hmal : (numScanSpec {} run).malformed = true := numScanSpec_shape_malformed run hshape
  have hne : run ≠ [] := by
    rcases hshape with ⟨u, v, w, h⟩ | ⟨u, sg, w, h, hu, _⟩ <;> (rw [h]; simp)
  obtain ⟨b0, run', rfl⟩ : ∃ b0 run', run = b0 :: run' := by
    cases run with
    | nil => exact absurd rfl hne
    | cons x xs => exact ⟨x, xs, rfl⟩
  have hdrop' : data.drop p = b0 :: (run' ++ tail) := by rw [← List.cons_append]; exact hdrop
  have hget0 : data.get? p = some b0 := get_of_drop_cons hdrop'
  have hb0 : numChar b0 := hchars b0 (List.mem_cons_self b0 run')
  have hsw := skip_white_id data p b0 hget0 (numChar_class hb0).1
  have hfl : (b0 :: run').length < data.length - p + 1 := by
    have hl := congrArg List.length hdrop
    rw [List.length_drop, List.length_append] at hl
    omega
  constructor
  · intro hstop
    have hloop := readNumLoop_spec_false (b0 :: run') tail data p {} (data.length - p + 1)
      hdrop hchars hterm (by simpa using hlen) hfl
    have hrc0 : (c.refcnt ++ [0]).getD c.heap.length 0 = 0 := by
      rw [← hpar]
      exact getD_concat_length c.refcnt 0 0
    have hmain : pdfi_read_num c { data := data, pos := p, eof := false } =
        (0,
         { c with
            heap := c.heap ++ [some ({ type := .tInt, intVal := 0 } : PdfObjData)],
            refcnt := (c.refcnt ++ [0]).set c.heap.length 1,
            stack := c.heap.length :: c.stack,
            pdfErrors := c.pdfErrors ||| E_PDF_MALFORMEDNUMBER },
         numFinalStream data p (b0 :: run') tail) := by
      simp only [pdfi_read_num, hsw, hstop]
      rw [show ({ data := data, pos := p, eof := false } : PStream).data.length -
            ({ data := data, pos := p, eof := false } : PStream).pos + 1 =
            data.length - p + 1 from rfl]
      rw [hloop]
      simp only [hmal, numScanSpec_errs, Ctx.alloc, pdfiPush, countup, Ctx.setRc, Ctx.rc,
        hrc0, Nat.or_zero, ite_true, if_true, eq_self_iff_true, Int.lt_irrefl, if_false,
        ite_false, Nat.zero_add, Nat.add_zero]
    refine ⟨by rw [hmain], by rw [hmain], by rw [hmain], by rw [hmain], ?_, ?_⟩
    · rw [hmain]
      simp only [Ctx.obj]
      simp only [List.get?_eq_getElem?, List.getElem?_concat_length, Option.join]
      rfl
    · rw [hmain]
      simp only [Ctx.rc]
      have hlt : c.heap.length < (c.refcnt ++ [0]).length := by
        simp only [List.length_append, List.length_singleton]
        omega
      exact getD_set_self _ _ _ _ hlt
  · intro hstop
    have hstopLoop := readNumLoop_stop_syntax (b0 :: run') tail data p {}
      (data.length - p + 1) hdrop hchars hmal rfl hfl
    simp only [pdfi_read_num, hsw, hstop]
    rw [show ({ data := data, pos := p, eof := false } : PStream).data.length -
          ({ data := data, pos := p, eof := false } : PStream).pos + 1 =
          data.length - p + 1 from rfl]
    obtain ⟨⟨code, s1, acc1⟩, hr⟩ :
        ∃ r, readNumLoop true (data.length - p + 1)
          { data := data, pos := p, eof := false } ({} : NumAcc) = r := ⟨_, rfl⟩
    rw [hr]
    rw [hr] at hstopLoop
    simp only at hstopLoop
    subst hstopLoop
    rw [if_pos (show gs_error_syntaxerror < 0 by decide)]


theorem read_num_malformed_tolerated_witness :
    ((pdfi_read_num {} { data := [0x31, 0x32, 0x2e, 0x35, 0x2e, 0x33], pos := 0, eof := false }).1 = 0 ∧
     (pdfi_read_num {} { data := [0x31, 0x32, 0x2e, 0x35, 0x2e, 0x33], pos := 0, eof := false }).2.2 =
       numFinalStream [0x31, 0x32, 0x2e, 0x35, 0x2e, 0x33] 0 [0x31, 0x32, 0x2e, 0x35, 0x2e, 0x33] [] ∧
     (pdfi_read_num {} { data := [0x31, 0x32, 0x2e, 0x35, 0x2e, 0x33], pos := 0, eof := false }).2.1.pdfErrors =
       ({} : Ctx).pdfErrors ||| E_PDF_MALFORMEDNUMBER ∧
     (pdfi_read_num {} { data := [0x31, 0x32, 0x2e, 0x35, 0x2e, 0x33], pos := 0, eof := false }).2.1.stack =
       ({} : Ctx).heap.length :: ({} : Ctx).stack ∧
     (pdfi_read_num {} { data := [0x31, 0x32, 0x2e, 0x35, 0x2e, 0x33], pos := 0, eof := false }).2.1.obj
       ({} : Ctx).heap.length = some { type := .tInt, intVal := 0 } ∧
     (pdfi_read_num {} { data := [0x31, 0x32, 0x2e, 0x35, 0x2e, 0x33], pos := 0, eof := false }).2.1.rc
       ({} : Ctx).heap.length = 1) ∧
    (pdfi_read_num { stopOnError := true }
      { data := [0x31, 0x32, 0x2e, 0x35, 0x2e, 0x33], pos := 0, eof := false }).1 =
      gs_error_syntaxerror := by
  constructor
  · exact (read_num_malformed_tolerated {} [0x31, 0x32, 0x2e, 0x35, 0x2e, 0x33]
      [0x31, 0x32, 0x2e, 0x35, 0x2e, 0x33] [] 0 rfl
      (Or.inl ⟨[0x31, 0x32], [0x35], [0x33], rfl⟩) (by simp only [numChar]; decide) rfl (by decide) rfl).1 rfl
  · exact (read_num_malformed_tolerated { stopOnError := true }
      [0x31, 0x32, 0x2e, 0x35, 0x2e, 0x33] [0x31, 0x32, 0x2e, 0x35, 0x2e, 0x33] [] 0 rfl
      (Or.inl ⟨[0x31, 0x32], [0x35], [0x33], rfl⟩) (by simp only [numChar]; decide) rfl (by decide) rfl).2 rfl


theorem xrefGetD_xrefSet_self (c : Ctx) (n : Nat) (e : XrefEntry)
    (h : n < c.xref.length) : xrefGetD (xrefSet c n e) n = e := by
  simp only [xrefGetD, xrefSet, List.getD, List.get?_eq_getElem?]
  rw [List.getElem?_set_eq_of_lt _ h]
  rfl

theorem getD_replicate_default (k m : Nat) (d : XrefEntry) :
    (List.replicate k d).getD m d = d := by
  by_cases h : m < k
  · simp [List.getD, List.get?_eq_getElem?, List.getElem?_replicate, h]
  · rw [List.getD_eq_default]
    simp only [List.length_replicate]
    omega

theorem getD_append_replicate (l : List XrefEntry) (k m : Nat) (d : XrefEntry) :
    (l ++ List.replicate k d).getD m d = l.getD m d := by
  by_cases h : m < l.length
  · simp only [List.getD, List.get?_eq_getElem?]
    rw [List.getElem?_append_left h]
  · by_cases h2 : m < l.length + k
    · simp only [List.getD, List.get?_eq_getElem?]
      rw [List.getElem?_append_right (by omega)]
      rw [List.getElem?_replicate]
      rw [if_pos (by omega)]
      rw [List.getElem?_eq_none (by omega)]
      rfl
    · rw [List.getD_eq_default _ _ (by simp only [List.length_append, List.length_replicate]; omega),
          List.getD_eq_default _ _ (by omega)]

/-- C9: the repair pass records each `N G obj` pattern via
`pdfi_repair_add_object` as a classic in-use xref entry at the pattern's
starting offset, growing the table as needed (`xrefSize` becomes the
maximum of the old size and `obj + 1`), unconditionally overwriting entry
`obj` (so the last occurrence of an object number wins) and leaving every
other entry unchanged; and on the concrete repair fixtures `pdfi_repair_file`
reconstructs the table (object 5 recorded at its later offset 64, the
Catalog dictionary found and set as Root during the second pass) and
registers the members of an ObjStm discovered in the second pass as
compressed entries with their container stream number and index. -/
theorem repair_scan_records_last_wins
    (c : Ctx) (obj gen offset : Nat)
    (hobj : obj < 0x7ffffff / sizeofXrefEntry)
    (hx : c.xref.length = c.xrefSize) :
    ((pdfi_repair_add_object c obj gen offset).1 = 0 ∧
     (pdfi_repair_add_object c obj gen offset).2.xrefSize = max c.xrefSize (obj + 1) ∧
     xrefGetD (pdfi_repair_add_object c obj gen offset).2 obj =
       { xrefGetD (pdfi_repair_add_object c obj gen offset).2 obj with
          objectNum := obj, free := false, compressed := false,
          offset := offset, gen := gen } ∧
     (∀ m, m ≠ obj →
        xrefGetD (pdfi_repair_add_object c obj gen offset).2 m = xrefGetD c m)) ∧
    ((pdfi_repair_file repairOneCtx).1 = 0 ∧
     (pdfi_repair_file repairOneCtx).2.xrefSize = 6 ∧
     xrefGetD (pdfi_repair_file repairOneCtx).2 5 =
       { objectNum := 5, offset := 64 } ∧
     xrefGetD (pdfi_repair_file repairOneCtx).2 3 =
       { objectNum := 3, offset := 28 } ∧
     (((pdfi_repair_file repairOneCtx).2.root.bind
         (pdfi_repair_file repairOneCtx).2.obj).map (fun d => d.type)) = some .tDict) ∧
    ((pdfi_repair_file repairTwoCtx).1 = 0 ∧
     xrefGetD (pdfi_repair_file repairTwoCtx).2 4 =
       { objectNum := 4, compressed := true, streamNum := 9, objIndex := 0 } ∧
     xrefGetD (pdfi_repair_file repairTwoCtx).2 5 =
       { objectNum := 5, compressed := true, streamNum := 9, objIndex := 1 } ∧
     (pdfi_repair_file repairTwoCtx).2.root.isSome = true) := by
  refine ⟨?_, by decide, by decide⟩
  have hng : ¬ (obj ≥ 0x7ffffff / sizeofXrefEntry) := not_le.mpr hobj
  simp only [pdfi_repair_add_object, hng, if_false, ite_false]
  by_cases h0 : c.xrefSize = 0
  · have hnil : c.xref = [] := List.eq_nil_of_length_eq_zero (hx.trans h0)
    simp only [h0, eq_self_iff_true, if_true, ite_true]
    refine ⟨trivial, ?_, ?_, ?_⟩
    · simp [xrefSet, h0]
    · rw [xrefGetD_xrefSet_self _ _ _ (by simp only [List.length_replicate]; omega)]
    · intro m hm
      rw [xrefGetD_xrefSet_ne _ _ _ _ (fun h => hm h.symm)]
      simp only [xrefGetD, hnil]
      rw [getD_replicate_default]
      rfl
  · by_cases h2 : c.xrefSize < obj + 1
    · simp only [h0, h2, if_false, ite_false, if_true, ite_true]
      refine ⟨trivial, ?_, ?_, ?_⟩
      · simp only [xrefSet]
        omega
      · rw [xrefGetD_xrefSet_self _ _ _
          (by simp only [List.length_append, List.length_replicate]; omega)]
      · intro m hm
        rw [xrefGetD_xrefSet_ne _ _ _ _ (fun h => hm h.symm)]
        simp only [xrefGetD]
        exact getD_append_replicate c.xref _ m {}
    · simp only [h0, h2, if_false, ite_false]
      refine ⟨trivial, ?_, ?_, ?_⟩
      · simp only [xrefSet]
        omega
      · rw [xrefGetD_xrefSet_self _ _ _ (by omega)]
      · intro m hm
        exact xrefGetD_xrefSet_ne _ _ _ _ (fun h => hm h.symm)


theorem repair_scan_records_last_wins_witness :
    (pdfi_repair_add_object {} 5 0 64).1 = 0 ∧
    (pdfi_repair_add_object {} 5 0 64).2.xrefSize = max ({} : Ctx).xrefSize (5 + 1) ∧
    xrefGetD (pdfi_repair_add_object {} 5 0 64).2 3 = xrefGetD {} 3 := by
  have h := repair_scan_records_last_wins {} 5 0 64 (by decide) rfl
  exact ⟨h.1.1, h.1.2.1, h.1.2.2.2 3 (by decide)⟩

end GhostPDF
